import Mathlib

/-! # Mini MIDI controller firmware: lifecycle state machine

A shallow embedding of `firmware/src/main.cpp`.  The global variables of the
sketch become the fields of `State`; every call into the Arduino / BLE / ESP
runtime that is visible from outside (serial output, BLE characteristic writes,
GPIO writes, delays, sleep configuration) is appended to `State.trace`.

Modelling conventions:

* `unsigned long` is 32 bits wide on the ESP32-C3; `millis()` returns the
  hardware millisecond counter modulo `2^32`, and unsigned subtraction is
  computed modulo `2^32` (`sub32`).
* A digital level is a `Bool`, `HIGH = true`, `LOW = false`
  (`digitalRead` only yields `HIGH` or `LOW`).
* The values returned by `digitalRead` are inputs of the functions that read a pin.
* Statements other than `delay` take no time; `delay n` advances the clock by `n`.
-/

namespace MiniMidi

/-! ## Configuration constants (lines 24-35) -/

def BUTTON_PIN : Nat := 2
def BOOT_BUTTON : Nat := 9
def LED_PIN : Nat := 8
def DEBOUNCE_DELAY : Nat := 50
def BOOT_HOLD_TIME : Nat := 5000
def SLEEP_TIMEOUT : Nat := 30000

def MIDI_CHANNEL : Nat := 1
def CC_NUMBER : Nat := 102
def CC_VALUE_ON : Nat := 127
def CC_VALUE_OFF : Nat := 0

def HIGH : Bool := true
def LOW : Bool := false

/-- Interrupt / wake-up level of `gpio_wakeup_enable`. -/
inductive GpioIntr where
  | lowLevel
  | highLevel
  deriving DecidableEq, Repr

/-- Externally visible runtime calls, in the order the firmware performs them. -/
inductive Effect where
  /-- Call `Serial.println(msg)`. -/
  | serialPrintln (msg : String)
  /-- Call `Serial.printf("MIDI CC: Ch%d CC#%d Value=%d\n", channel, cc, value)`. -/
  | serialPrintfCC (channel cc value : Nat)
  /-- Call `pCharacteristic->setValue(data, len)`; `data` holds the `len` bytes copied. -/
  | setValue (data : List Nat)
  /-- Call `pCharacteristic->notify()`. -/
  | notify
  /-- Call `BLEDevice::startAdvertising()`. -/
  | startAdvertising
  /-- Call `digitalWrite(pin, level)`. -/
  | digitalWrite (pin : Nat) (level : Bool)
  /-- Call `delay(ms)`. -/
  | delay (ms : Nat)
  /-- Call `esp_sleep_enable_gpio_wakeup()`. -/
  | sleepEnableGpioWakeup
  /-- Call `gpio_wakeup_enable(pin, intr)`. -/
  | gpioWakeupEnable (pin : Nat) (intr : GpioIntr)
  /-- Call `esp_deep_sleep_start()`; it does not return. -/
  | deepSleepStart
  deriving DecidableEq, Repr

/-- The global variables of the sketch (lines 38-52), the millisecond clock and
the trace of runtime calls performed so far. -/
structure State where
  clock : Nat
  deviceConnected : Bool
  oldDeviceConnected : Bool
  buttonActive : Bool
  lastButtonState : Bool
  lastDebounceTime : Nat
  lastActivityTime : Nat
  bootPressStartTime : Nat
  bootButtonPressed : Bool
  midiPacket : List Nat
  trace : List Effect
  deriving DecidableEq, Repr

/-- The globals as initialised at lines 40-52, at clock value `0`, nothing done yet. -/
def initState : State :=
  { clock := 0
    deviceConnected := false
    oldDeviceConnected := false
    buttonActive := false
    lastButtonState := HIGH
    lastDebounceTime := 0
    lastActivityTime := 0
    bootPressStartTime := 0
    bootButtonPressed := false
    midiPacket := [0, 0, 0, 0, 0]
    trace := [] }

/-- Function `millis()`: the clock as a 32-bit unsigned value. -/
def millis (s : State) : Nat := s.clock % 4294967296

/-- Unsigned 32-bit subtraction `a - b`. -/
def sub32 (a b : Nat) : Nat := (a % 4294967296 + 4294967296 - b % 4294967296) % 4294967296

/-- Record one runtime call. -/
def emit (e : Effect) (s : State) : State := { s with trace := s.trace ++ [e] }

/-- Function `delay(ms)`: blocks for `ms` milliseconds. -/
def delay (ms : Nat) (s : State) : State :=
  { s with clock := s.clock + ms, trace := s.trace ++ [Effect.delay ms] }

/-- Function `digitalWrite(pin, level)`. -/
def digitalWrite (pin : Nat) (level : Bool) (s : State) : State :=
  emit (Effect.digitalWrite pin level) s

/-- Function `sendMIDI` (lines 218-241).  The four `uint8_t` parameters are reduced modulo 256;
`channel - 1` is computed in 32-bit `int` arithmetic before masking.  All five slots of
`midiPacket` are assigned, so the array is replaced as a whole. -/
def sendMIDI (type channel note velocity : Nat) (s : State) : State :=
  if !s.deviceConnected then
    emit (Effect.serialPrintln "Not connected - MIDI not sent") s
  else
    let status := ((type % 256) ||| (((channel % 256 + 4294967295) % 4294967296) &&& 0x0F)) % 256
    let s1 := { s with
      midiPacket := [0x80, 0x80, status, (note % 256) &&& 0x7F, (velocity % 256) &&& 0x7F] }
    let s2 := emit (Effect.setValue (s1.midiPacket.take 5)) s1
    emit Effect.notify s2

/-- Function `sendNoteOn` (lines 243-246). -/
def sendNoteOn (s : State) : State :=
  sendMIDI 0xB0 MIDI_CHANNEL CC_NUMBER CC_VALUE_ON
    (emit (Effect.serialPrintfCC MIDI_CHANNEL CC_NUMBER CC_VALUE_ON) s)

/-- Function `sendNoteOff` (lines 248-251). -/
def sendNoteOff (s : State) : State :=
  sendMIDI 0xB0 MIDI_CHANNEL CC_NUMBER CC_VALUE_OFF
    (emit (Effect.serialPrintfCC MIDI_CHANNEL CC_NUMBER CC_VALUE_OFF) s)

/-- The body of the `for` loop at lines 260-265, run `n` times. -/
def blinkLoop : Nat → State → State
  | 0, s => s
  | n + 1, s =>
    blinkLoop n (delay 100 (digitalWrite LED_PIN LOW (delay 100 (digitalWrite LED_PIN HIGH s))))

/-- Function `enterPairingMode` (lines 253-268). -/
def enterPairingMode (s : State) : State :=
  let s1 := emit (Effect.serialPrintln "Entering pairing mode...") s
  let s2 := emit Effect.startAdvertising s1
  let s3 := blinkLoop 6 s2
  { s3 with lastActivityTime := millis s3 }

/-- Function `enterDeepSleep` (lines 270-290).  `esp_deep_sleep_start` does not return: the
returned state is the one in which the device is suspended. -/
def enterDeepSleep (s : State) : State :=
  let s1 := emit (Effect.serialPrintln "Entering deep sleep...") s
  let s2 := if s1.buttonActive then sendNoteOff s1 else s1
  let s3 := digitalWrite LED_PIN LOW s2
  let s4 := emit Effect.sleepEnableGpioWakeup s3
  let s5 := emit (Effect.gpioWakeupEnable BOOT_BUTTON GpioIntr.lowLevel) s4
  let s6 := emit (Effect.gpioWakeupEnable BUTTON_PIN GpioIntr.lowLevel) s5
  let s7 := emit (Effect.serialPrintln "Going to sleep now...") s6
  let s8 := delay 100 s7
  emit Effect.deepSleepStart s8

/-- Function `updateStatusLED` (lines 292-300). -/
def updateStatusLED (s : State) : State :=
  if s.deviceConnected then
    digitalWrite LED_PIN HIGH s
  else
    digitalWrite LED_PIN ((millis s / 500) % 2 != 0) s

/-- Function `checkBootButton` (lines 169-187); `bootLevel` is `digitalRead(BOOT_BUTTON)`. -/
def checkBootButton (bootLevel : Bool) (s : State) : State :=
  let currentState := (bootLevel == LOW)
  if currentState && !s.bootButtonPressed then
    { s with bootPressStartTime := millis s, bootButtonPressed := true }
  else if !currentState && s.bootButtonPressed then
    let pressDuration := sub32 (millis s) s.bootPressStartTime
    let s1 := if pressDuration >= BOOT_HOLD_TIME then enterPairingMode s else s
    { s1 with bootButtonPressed := false }
  else
    s

/-- Function `checkButton` (lines 189-216); `reading` is `digitalRead(BUTTON_PIN)`. -/
def checkButton (reading : Bool) (s : State) : State :=
  let s1 := if reading != s.lastButtonState then { s with lastDebounceTime := millis s } else s
  let s2 :=
    if sub32 (millis s1) s1.lastDebounceTime > DEBOUNCE_DELAY then
      let buttonPressed := (reading == LOW)
      if buttonPressed && !s1.buttonActive then
        let s3 := sendNoteOn { s1 with buttonActive := true }
        { s3 with lastActivityTime := millis s3 }
      else if !buttonPressed && s1.buttonActive then
        let s3 := sendNoteOff { s1 with buttonActive := false }
        { s3 with lastActivityTime := millis s3 }
      else
        s1
    else
      s1
  { s2 with lastButtonState := reading }

/-- Callback `MyServerCallbacks::onConnect` (lines 67-71). -/
def onConnect (s : State) : State :=
  let s1 := emit (Effect.serialPrintln "BLE MIDI connected!") { s with deviceConnected := true }
  { s1 with lastActivityTime := millis s1 }

/-- Callback `MyServerCallbacks::onDisconnect` (lines 73-81). -/
def onDisconnect (s : State) : State :=
  let s1 := emit (Effect.serialPrintln "BLE MIDI disconnected") { s with deviceConnected := false }
  let s2 := { s1 with lastActivityTime := millis s1 }
  let s3 := emit Effect.startAdvertising s2
  emit (Effect.serialPrintln "Restarting advertising...") s3

/-- The part of `loop` before the sleep check (lines 105-119): both button checks and the
bookkeeping of `oldDeviceConnected`. -/
def loopPrefix (bootLevel reading : Bool) (s : State) : State :=
  let s1 := checkBootButton bootLevel s
  let s2 := checkButton reading s1
  let s3 :=
    if !s2.deviceConnected && s2.oldDeviceConnected then
      let d := delay 500 s2
      { d with oldDeviceConnected := d.deviceConnected }
    else s2
  if s3.deviceConnected && !s3.oldDeviceConnected then
    { s3 with oldDeviceConnected := s3.deviceConnected }
  else s3

/-- One pass of `loop` (lines 104-130).  When the sleep branch is taken the device is
suspended inside `enterDeepSleep` and the rest of the pass is not executed. -/
def loop (bootLevel reading : Bool) (s : State) : State :=
  let s4 := loopPrefix bootLevel reading s
  if !s4.deviceConnected && sub32 (millis s4) s4.lastActivityTime > SLEEP_TIMEOUT then
    enterDeepSleep s4
  else
    delay 10 (updateStatusLED s4)

/-! ## Observation helpers used in the statements -/

/-- The runtime calls performed by a step that led from `s` to `s'`. -/
def emitted (s s' : State) : List Effect := s'.trace.drop s.trace.length

/-- The five bytes of the "on" packet: Control Change, channel 1, controller 102, value 127. -/
def onPacket : List Nat := [0x80, 0x80, 0xB0, 0x66, 0x7F]

/-- The five bytes of the "off" packet: Control Change, channel 1, controller 102, value 0. -/
def offPacket : List Nat := [0x80, 0x80, 0xB0, 0x66, 0x00]

/-- The serial line with which `sendNoteOn` announces its send. -/
def onAttempt : Effect := Effect.serialPrintfCC MIDI_CHANNEL CC_NUMBER CC_VALUE_ON

/-- The serial line with which `sendNoteOff` announces its send. -/
def offAttempt : Effect := Effect.serialPrintfCC MIDI_CHANNEL CC_NUMBER CC_VALUE_OFF

/-- The serial line of `sendMIDI` when the message is dropped. -/
def droppedLine : Effect := Effect.serialPrintln "Not connected - MIDI not sent"

/-- What a call of `sendNoteOn` does on the outside, by connection state. -/
def sendOnEffects (connected : Bool) : List Effect :=
  if connected then [onAttempt, Effect.setValue onPacket, Effect.notify]
  else [onAttempt, droppedLine]

/-- What a call of `sendNoteOff` does on the outside, by connection state. -/
def sendOffEffects (connected : Bool) : List Effect :=
  if connected then [offAttempt, Effect.setValue offPacket, Effect.notify]
  else [offAttempt, droppedLine]

/-- What a call of `enterPairingMode` does on the outside: the serial line, the advertising
restart and the six on/off blinks of 100 ms per phase. -/
def pairingEffects : List Effect :=
  [Effect.serialPrintln "Entering pairing mode...", Effect.startAdvertising,
    Effect.digitalWrite LED_PIN HIGH, Effect.delay 100,
    Effect.digitalWrite LED_PIN LOW, Effect.delay 100,
    Effect.digitalWrite LED_PIN HIGH, Effect.delay 100,
    Effect.digitalWrite LED_PIN LOW, Effect.delay 100,
    Effect.digitalWrite LED_PIN HIGH, Effect.delay 100,
    Effect.digitalWrite LED_PIN LOW, Effect.delay 100,
    Effect.digitalWrite LED_PIN HIGH, Effect.delay 100,
    Effect.digitalWrite LED_PIN LOW, Effect.delay 100,
    Effect.digitalWrite LED_PIN HIGH, Effect.delay 100,
    Effect.digitalWrite LED_PIN LOW, Effect.delay 100,
    Effect.digitalWrite LED_PIN HIGH, Effect.delay 100,
    Effect.digitalWrite LED_PIN LOW, Effect.delay 100]

/-- A step from `s` to `s'` only appends to the trace and never calls `esp_deep_sleep_start`. -/
def StaysAwake (s s' : State) : Prop :=
  ∃ es, s'.trace = s.trace ++ es ∧ Effect.deepSleepStart ∉ es

/-- One pass of `loop` evaluated at clock value `t`. -/
def tickAt (t : Nat) (bootLevel reading : Bool) (s : State) : State :=
  loop bootLevel reading { s with clock := t }

/-- Successive passes of `loop` with both inputs inactive (`HIGH`), evaluated at the given clock
values, with no connection event in between. -/
def idleTicks : List Nat → State → State
  | [], s => s
  | t :: ts, s => idleTicks ts (tickAt t HIGH HIGH s)

/-- The situation of the sleep scenario: disconnected, activity timer at `0`, no button held,
and not yet suspended. -/
def IdleDisconnected (s : State) : Prop :=
  s.deviceConnected = false ∧ s.oldDeviceConnected = false ∧ s.lastActivityTime = 0 ∧
    s.buttonActive = false ∧ s.lastButtonState = HIGH ∧ s.bootButtonPressed = false ∧
    Effect.deepSleepStart ∉ s.trace

/-- One call of `checkButton` with pin reading `x.1`, made at clock value `x.2`. -/
def sampleAt (x : Bool × Nat) (s : State) : State :=
  checkButton x.1 { s with clock := x.2 }

/-- Successive calls of `checkButton` on a sequence of (reading, clock value) samples. -/
def runButton (samples : List (Bool × Nat)) (s : State) : State :=
  samples.foldl (fun st x => sampleAt x st) s

/-- Direction of a debounced edge. -/
inductive Edge where
  | Rose
  | Fell
  deriving DecidableEq, Repr

/-- The edge emitted by one call of `checkButton`, read off the change of `buttonActive`:
`Rose` when it becomes true (lines 202-206), `Fell` when it becomes false (lines 207-211). -/
def edgeAt (x : Bool × Nat) (s : State) : Option Edge :=
  if !s.buttonActive && (sampleAt x s).buttonActive then some Edge.Rose
  else if s.buttonActive && !(sampleAt x s).buttonActive then some Edge.Fell
  else none

/-- The edges emitted, in order, by the calls of `runButton samples s`. -/
def edges : List (Bool × Nat) → State → List Edge
  | [], _ => []
  | x :: xs, s => (edgeAt x s).toList ++ edges xs (sampleAt x s)

/-- The message a given edge stands for: `true` is "on", `false` is "off". -/
def Edge.isOn : Edge → Bool
  | Edge.Rose => true
  | Edge.Fell => false

/-- The sequence of MIDI messages whose send was invoked, read off a list of runtime calls:
`true` for each `sendNoteOn`, `false` for each `sendNoteOff`. -/
def messages (es : List Effect) : List Bool :=
  es.filterMap fun e =>
    if e = onAttempt then some true else if e = offAttempt then some false else none

/-- The packets handed to the transport, read off a list of runtime calls. -/
def transmitted (es : List Effect) : List (List Nat) :=
  es.filterMap fun e =>
    match e with
    | Effect.setValue d => some d
    | _ => none

/-- State of the specification's Debouncer (section 4.1 of the specification). -/
structure DebouncerState where
  last_raw_level : Bool
  last_change_time : Nat
  stable_level : Bool
  deriving DecidableEq, Repr

/-- The Debouncer step in the specification's words (section 4.1), `raw_level = true` meaning
active: reset `last_change_time` when the raw level changed; then, if
`now - last_change_time >= 50` and the raw level differs from the stable level, update the
stable level and return the edge, else return none.  Times are 32-bit values. -/
def specObserve (raw_level : Bool) (now : Nat) (d : DebouncerState) :
    DebouncerState × Option Edge :=
  let d1 :=
    if raw_level != d.last_raw_level then
      { d with last_change_time := now, last_raw_level := raw_level }
    else d
  if sub32 now d1.last_change_time ≥ 50 ∧ raw_level ≠ d1.stable_level then
    ({ d1 with stable_level := raw_level }, some (if raw_level then Edge.Rose else Edge.Fell))
  else (d1, none)

/-- The Debouncer step of the specification with the quiet period tested strictly,
`now - last_change_time > 50`; everything else as in `specObserve`. -/
def strictObserve (raw_level : Bool) (now : Nat) (d : DebouncerState) :
    DebouncerState × Option Edge :=
  let d1 :=
    if raw_level != d.last_raw_level then
      { d with last_change_time := now, last_raw_level := raw_level }
    else d
  if sub32 now d1.last_change_time > 50 ∧ raw_level ≠ d1.stable_level then
    ({ d1 with stable_level := raw_level }, some (if raw_level then Edge.Rose else Edge.Fell))
  else (d1, none)

/-- The Debouncer state held in the globals: the previous raw level is `lastButtonState`
(active when `LOW`), the last change time is `lastDebounceTime` and the stable level is
`buttonActive`. -/
def debouncerOf (s : State) : DebouncerState :=
  { last_raw_level := (s.lastButtonState == LOW)
    last_change_time := s.lastDebounceTime
    stable_level := s.buttonActive }

/-- The levels written to the status LED, in order, read off a list of runtime calls. -/
def ledWrites (es : List Effect) : List Bool :=
  es.filterMap fun e =>
    match e with
    | Effect.digitalWrite pin level => if pin = LED_PIN then some level else none
    | _ => none

/-- The total time, in milliseconds, spent in `delay` by a list of runtime calls. -/
def delayTotal (es : List Effect) : Nat :=
  (es.map fun e =>
    match e with
    | Effect.delay ms => ms
    | _ => 0).sum

/-- One blink of the pairing indication: LED on, 100 ms, LED off, 100 ms. -/
def blinkCycle : List Effect :=
  [Effect.digitalWrite LED_PIN HIGH, Effect.delay 100,
    Effect.digitalWrite LED_PIN LOW, Effect.delay 100]

/-- A step from `s` to `s'` only appends runtime calls, none of which writes or notifies the
BLE characteristic, and keeps the packet buffer. -/
def Silent (s s' : State) : Prop :=
  ∃ es, s'.trace = s.trace ++ es ∧ (∀ d, Effect.setValue d ∉ es) ∧ Effect.notify ∉ es ∧
    s'.midiPacket = s.midiPacket

/-- One call of `checkBootButton` with boot pin reading `x.1`, made at clock value `x.2`. -/
def bootSampleAt (x : Bool × Nat) (s : State) : State :=
  checkBootButton x.1 { s with clock := x.2 }

/-- Successive calls of `checkBootButton` on a sequence of (reading, clock value) samples. -/
def runBoot (samples : List (Bool × Nat)) (s : State) : State :=
  samples.foldl (fun st x => bootSampleAt x st) s

/-- The duration evaluated by the call `bootSampleAt x s`: the value of the local
`pressDuration` when the release branch (lines 176-186) is taken, none when it is not. -/
def releaseAt (x : Bool × Nat) (s : State) : Option Nat :=
  let currentState := (x.1 == LOW)
  if currentState && !s.bootButtonPressed then none
  else if !currentState && s.bootButtonPressed then
    some (sub32 (millis { s with clock := x.2 }) s.bootPressStartTime)
  else none

theorem emitted_append (s s' : State) (es : List Effect) (h : s'.trace = s.trace ++ es) :
    emitted s s' = es := by
  simp [emitted, h]

theorem sendNoteOn_eq (s : State) :
    sendNoteOn s =
      { s with
        midiPacket := if s.deviceConnected then onPacket else s.midiPacket
        trace := s.trace ++ sendOnEffects s.deviceConnected } := by
  cases hc : s.deviceConnected
  · simp [sendNoteOn, sendMIDI, emit, hc, sendOnEffects, onAttempt, droppedLine,
      MIDI_CHANNEL, CC_NUMBER, CC_VALUE_ON]
  · simp [sendNoteOn, sendMIDI, emit, hc, sendOnEffects, onAttempt, onPacket,
      MIDI_CHANNEL, CC_NUMBER, CC_VALUE_ON]
    decide

theorem sendNoteOff_eq (s : State) :
    sendNoteOff s =
      { s with
        midiPacket := if s.deviceConnected then offPacket else s.midiPacket
        trace := s.trace ++ sendOffEffects s.deviceConnected } := by
  cases hc : s.deviceConnected
  · simp [sendNoteOff, sendMIDI, emit, hc, sendOffEffects, offAttempt, droppedLine,
      MIDI_CHANNEL, CC_NUMBER, CC_VALUE_OFF]
  · simp [sendNoteOff, sendMIDI, emit, hc, sendOffEffects, offAttempt, offPacket,
      MIDI_CHANNEL, CC_NUMBER, CC_VALUE_OFF]
    decide

/-! ## C1: the two fixed packets -/

/-- C1: while connected, `sendNoteOn` leaves `[0x80, 0x80, 0xB0, 0x66, 0x7F]` in the packet
buffer and hands exactly these five bytes to `setValue` followed by `notify`; `sendNoteOff`
does the same with `[0x80, 0x80, 0xB0, 0x66, 0x00]`.  Nothing else of the state changes. -/
theorem sendNoteOn_sendNoteOff_packets (s : State) (h : s.deviceConnected = true) :
    sendNoteOn s =
        { s with
          midiPacket := [0x80, 0x80, 0xB0, 0x66, 0x7F]
          trace := s.trace ++
            [Effect.serialPrintfCC 1 102 127, Effect.setValue [0x80, 0x80, 0xB0, 0x66, 0x7F],
              Effect.notify] } ∧
      sendNoteOff s =
        { s with
          midiPacket := [0x80, 0x80, 0xB0, 0x66, 0x00]
          trace := s.trace ++
            [Effect.serialPrintfCC 1 102 0, Effect.setValue [0x80, 0x80, 0xB0, 0x66, 0x00],
              Effect.notify] } := by
  constructor
  · rw [sendNoteOn_eq, h]; rfl
  · rw [sendNoteOff_eq, h]; rfl

theorem sendNoteOn_sendNoteOff_packets_witness :
    (sendNoteOn { initState with deviceConnected := true }).midiPacket
        = [0x80, 0x80, 0xB0, 0x66, 0x7F] ∧
      (sendNoteOff { initState with deviceConnected := true }).trace
        = [Effect.serialPrintfCC 1 102 0, Effect.setValue [0x80, 0x80, 0xB0, 0x66, 0x00],
            Effect.notify] := by
  have h := sendNoteOn_sendNoteOff_packets { initState with deviceConnected := true } rfl
  exact ⟨by rw [h.1], by rw [h.2]; rfl⟩

/-! ## C9: a send while disconnected is dropped -/

/-- C9: for every type, channel, note and velocity, `sendMIDI` called while disconnected
returns the state it was given with one serial line appended to the trace: the packet buffer
and every global keep their values, and neither `setValue` nor `notify` is called. -/
theorem sendMIDI_disconnected_drops (type channel note velocity : Nat) (s : State)
    (h : s.deviceConnected = false) :
    sendMIDI type channel note velocity s =
        { s with trace := s.trace ++ [Effect.serialPrintln "Not connected - MIDI not sent"] } ∧
      (sendMIDI type channel note velocity s).midiPacket = s.midiPacket ∧
      (∀ d, Effect.setValue d ∉ emitted s (sendMIDI type channel note velocity s)) ∧
      Effect.notify ∉ emitted s (sendMIDI type channel note velocity s) := by
  have e : sendMIDI type channel note velocity s =
      { s with trace := s.trace ++ [Effect.serialPrintln "Not connected - MIDI not sent"] } := by
    simp [sendMIDI, emit, h]
  refine ⟨e, ?_, ?_, ?_⟩
  · rw [e]
  · intro d
    rw [emitted_append s _ [Effect.serialPrintln "Not connected - MIDI not sent"] (by rw [e])]
    simp
  · rw [emitted_append s _ [Effect.serialPrintln "Not connected - MIDI not sent"] (by rw [e])]
    simp

theorem sendMIDI_disconnected_drops_witness :
    sendMIDI 0xB0 1 102 127 initState =
      { initState with trace := [Effect.serialPrintln "Not connected - MIDI not sent"] } :=
  (sendMIDI_disconnected_drops 0xB0 1 102 127 initState rfl).1

/-! ## C8: order of the effects of the sleep entry action -/

theorem enterDeepSleep_trace (s : State) :
    (enterDeepSleep s).trace =
      s.trace ++ ([Effect.serialPrintln "Entering deep sleep..."]
        ++ (if s.buttonActive then sendOffEffects s.deviceConnected else [])
        ++ [Effect.digitalWrite LED_PIN LOW,
            Effect.sleepEnableGpioWakeup,
            Effect.gpioWakeupEnable BOOT_BUTTON GpioIntr.lowLevel,
            Effect.gpioWakeupEnable BUTTON_PIN GpioIntr.lowLevel,
            Effect.serialPrintln "Going to sleep now...",
            Effect.delay 100,
            Effect.deepSleepStart]) := by
  cases hb : s.buttonActive
  · simp [enterDeepSleep, emit, delay, digitalWrite, hb]
  · simp [enterDeepSleep, emit, delay, digitalWrite, hb, sendNoteOff_eq]

/-- C8: for every state, `enterDeepSleep` performs, in this order: the `sendNoteOff` attempt if
and only if `buttonActive` holds (a transmitted packet when connected, a dropped one
otherwise); the LED write to `LOW`; the arming of GPIO wake-up with exactly the two sources
boot (mode) button low level and trigger button low level; and last `esp_deep_sleep_start`. -/
theorem enterDeepSleep_effect_order (s : State) :
    (enterDeepSleep s).trace =
      s.trace ++ [Effect.serialPrintln "Entering deep sleep..."]
        ++ (if s.buttonActive then sendOffEffects s.deviceConnected else [])
        ++ [Effect.digitalWrite LED_PIN LOW,
            Effect.sleepEnableGpioWakeup,
            Effect.gpioWakeupEnable BOOT_BUTTON GpioIntr.lowLevel,
            Effect.gpioWakeupEnable BUTTON_PIN GpioIntr.lowLevel,
            Effect.serialPrintln "Going to sleep now...",
            Effect.delay 100,
            Effect.deepSleepStart] := by
  rw [enterDeepSleep_trace]
  simp

/-! ## C2: messages and the activity timer follow the logical button state -/

/-- Closed form of `checkButton`: the debounce timestamp is refreshed when the level changed,
and the logical state toggles (with its message and a timer reset) exactly when the level has
been unchanged for more than `DEBOUNCE_DELAY` and disagrees with the logical state. -/
theorem checkButton_eq (reading : Bool) (s : State) :
    checkButton reading s =
      if sub32 (millis s) (if reading != s.lastButtonState then millis s else s.lastDebounceTime)
            > DEBOUNCE_DELAY ∧ (reading == LOW) ≠ s.buttonActive then
        { s with
          lastDebounceTime := if reading != s.lastButtonState then millis s else s.lastDebounceTime
          buttonActive := !s.buttonActive
          lastActivityTime := millis s
          lastButtonState := reading
          midiPacket :=
            if s.deviceConnected then (if s.buttonActive then offPacket else onPacket)
            else s.midiPacket
          trace := s.trace ++
            (if s.buttonActive then sendOffEffects s.deviceConnected
              else sendOnEffects s.deviceConnected) }
      else
        { s with
          lastDebounceTime := if reading != s.lastButtonState then millis s else s.lastDebounceTime
          lastButtonState := reading } := by
  obtain ⟨clock, dc, odc, ba, lbs, ldt, lat, bpst, bbp, pkt, tr⟩ := s
  by_cases hchg : reading = lbs
  · subst hchg
    by_cases hd : sub32 (clock % 4294967296) ldt > DEBOUNCE_DELAY
    · cases reading <;> cases ba <;> cases dc <;>
        simp [checkButton, sendNoteOn_eq, sendNoteOff_eq, millis, hd, LOW]
    · simp [checkButton, millis, hd]
  · have hz : ¬ sub32 (clock % 4294967296) (clock % 4294967296) > DEBOUNCE_DELAY := by
      simp only [sub32, DEBOUNCE_DELAY]; omega
    simp [checkButton, millis, hchg, hz]

/-- C2: for every state and every reading, with `now = millis s` the clock value of the call:
`sendNoteOn` is invoked in the call iff `buttonActive` goes from false to true, `sendNoteOff`
iff it goes from true to false, and the call performs nothing else; when connected the
corresponding packet is handed to the transport in exactly those cases.
`lastActivityTime` becomes `now` in exactly those two cases and keeps its value otherwise. -/
theorem checkButton_message_iff_transition (reading : Bool) (s : State) :
    (checkButton reading s).trace = s.trace ++ emitted s (checkButton reading s) ∧
      (onAttempt ∈ emitted s (checkButton reading s) ↔
        (s.buttonActive = false ∧ (checkButton reading s).buttonActive = true)) ∧
      (offAttempt ∈ emitted s (checkButton reading s) ↔
        (s.buttonActive = true ∧ (checkButton reading s).buttonActive = false)) ∧
      (Effect.setValue onPacket ∈ emitted s (checkButton reading s) ↔
        (s.deviceConnected = true ∧
          s.buttonActive = false ∧ (checkButton reading s).buttonActive = true)) ∧
      (Effect.setValue offPacket ∈ emitted s (checkButton reading s) ↔
        (s.deviceConnected = true ∧
          s.buttonActive = true ∧ (checkButton reading s).buttonActive = false)) ∧
      emitted s (checkButton reading s) =
        (if s.buttonActive = false ∧ (checkButton reading s).buttonActive = true then
          sendOnEffects s.deviceConnected
        else if s.buttonActive = true ∧ (checkButton reading s).buttonActive = false then
          sendOffEffects s.deviceConnected
        else []) ∧
      (checkButton reading s).lastActivityTime =
        (if (checkButton reading s).buttonActive ≠ s.buttonActive then millis s
        else s.lastActivityTime) := by
  rw [checkButton_eq]
  by_cases hE : sub32 (millis s)
      (if reading != s.lastButtonState then millis s else s.lastDebounceTime)
        > DEBOUNCE_DELAY ∧ (reading == LOW) ≠ s.buttonActive
  · rw [if_pos hE]
    cases hb : s.buttonActive <;> cases hc : s.deviceConnected <;>
      simp [emitted, sendOnEffects, sendOffEffects, onAttempt, offAttempt, droppedLine,
        onPacket, offPacket, CC_VALUE_ON, CC_VALUE_OFF]
  · rw [if_neg hE]
    cases hb : s.buttonActive <;> simp [emitted]

/-! ## C5: the long-press decision of `checkBootButton` -/

theorem enterPairingMode_eq (s : State) :
    enterPairingMode s =
      { s with
        clock := s.clock + 1200
        lastActivityTime := (s.clock + 1200) % 4294967296
        trace := s.trace ++ pairingEffects } := by
  simp [enterPairingMode, blinkLoop, emit, delay, digitalWrite, millis, pairingEffects,
    Nat.add_assoc]

/-- Closed form of `checkBootButton`. -/
theorem checkBootButton_eq (bootLevel : Bool) (s : State) :
    checkBootButton bootLevel s =
      if bootLevel = LOW then
        (if s.bootButtonPressed then s
          else { s with bootPressStartTime := millis s, bootButtonPressed := true })
      else if s.bootButtonPressed then
        (if sub32 (millis s) s.bootPressStartTime ≥ BOOT_HOLD_TIME then
          { s with
            clock := s.clock + 1200
            lastActivityTime := (s.clock + 1200) % 4294967296
            bootButtonPressed := false
            trace := s.trace ++ pairingEffects }
        else { s with bootButtonPressed := false })
      else s := by
  cases bootLevel <;> cases hb : s.bootButtonPressed
  · simp [checkBootButton, LOW, hb]
  · simp [checkBootButton, LOW, hb]
  · simp [checkBootButton, LOW, hb]
  · by_cases hd : sub32 (millis s) s.bootPressStartTime ≥ BOOT_HOLD_TIME
    · simp [checkBootButton, LOW, hb, hd, enterPairingMode_eq]
    · simp [checkBootButton, LOW, hb, hd]

/-- C5: for every state and boot level, with `now = millis s`: `checkBootButton` runs
`enterPairingMode` (advertising restart and the whole blink sequence) iff the boot input reads
inactive (`HIGH`), `bootButtonPressed` was true and `now - bootPressStartTime >= 5000`
(modulo `2^32`), and otherwise calls nothing.  The decision is the same for every value of
`deviceConnected` and `buttonActive`; a hold of 5000 ms triggers, one of 4999 ms does not,
and one of 6000 ms released while connected triggers, whatever `buttonActive` is. -/
theorem checkBootButton_pairing_iff (bootLevel : Bool) (s : State) :
    (checkBootButton bootLevel s).trace = s.trace ++ emitted s (checkBootButton bootLevel s) ∧
      emitted s (checkBootButton bootLevel s) =
        (if bootLevel = HIGH ∧ s.bootButtonPressed = true ∧
            sub32 (millis s) s.bootPressStartTime ≥ 5000 then pairingEffects else []) ∧
      (Effect.startAdvertising ∈ emitted s (checkBootButton bootLevel s) ↔
        (bootLevel = HIGH ∧ s.bootButtonPressed = true ∧
          sub32 (millis s) s.bootPressStartTime ≥ 5000)) ∧
      (∀ c b : Bool,
        emitted { s with deviceConnected := c, buttonActive := b }
            (checkBootButton bootLevel { s with deviceConnected := c, buttonActive := b })
          = emitted s (checkBootButton bootLevel s)) ∧
      (s.bootButtonPressed = true → sub32 (millis s) s.bootPressStartTime = 5000 →
        emitted s (checkBootButton HIGH s) = pairingEffects) ∧
      (s.bootButtonPressed = true → sub32 (millis s) s.bootPressStartTime = 4999 →
        emitted s (checkBootButton HIGH s) = []) ∧
      (s.bootButtonPressed = true → sub32 (millis s) s.bootPressStartTime = 6000 →
        s.deviceConnected = true →
        emitted s (checkBootButton HIGH s) = pairingEffects) := by
  have key : ∀ (lvl : Bool) (u : State),
      (checkBootButton lvl u).trace = u.trace ++
        (if lvl = HIGH ∧ u.bootButtonPressed = true ∧
            sub32 (millis u) u.bootPressStartTime ≥ 5000 then pairingEffects else []) := by
    intro lvl u
    rw [checkBootButton_eq]
    cases lvl <;> cases hb : u.bootButtonPressed
    · simp [LOW, HIGH]
    · simp [LOW, HIGH]
    · simp [LOW, HIGH]
    · by_cases hd : sub32 (millis u) u.bootPressStartTime ≥ 5000
      · simp [LOW, HIGH, BOOT_HOLD_TIME, hd]
      · simp [LOW, HIGH, BOOT_HOLD_TIME, hd]
  have em : ∀ (lvl : Bool) (u : State), emitted u (checkBootButton lvl u) =
      (if lvl = HIGH ∧ u.bootButtonPressed = true ∧
          sub32 (millis u) u.bootPressStartTime ≥ 5000 then pairingEffects else []) :=
    fun lvl u => emitted_append u _ _ (key lvl u)
  refine ⟨?_, em _ _, ?_, ?_, ?_, ?_, ?_⟩
  · rw [em]; exact key _ _
  · rw [em]
    by_cases hc : bootLevel = HIGH ∧ s.bootButtonPressed = true ∧
        sub32 (millis s) s.bootPressStartTime ≥ 5000
    · simp [hc, pairingEffects]
    · simp [hc]
  · intro c b
    rw [em, em]
    rfl
  · intro hb hd
    rw [em]; simp [hb, hd]
  · intro hb hd
    rw [em]; simp [hb, hd]
  · intro hb hd _
    rw [em]; simp [hb, hd]

/-! ## C6: the sleep decision of `loop` -/

theorem staysAwake_refl (s : State) : StaysAwake s s := ⟨[], by simp, by simp⟩

theorem staysAwake_trans {a b c : State} (h1 : StaysAwake a b) (h2 : StaysAwake b c) :
    StaysAwake a c := by
  obtain ⟨e1, t1, n1⟩ := h1
  obtain ⟨e2, t2, n2⟩ := h2
  exact ⟨e1 ++ e2, by rw [t2, t1, List.append_assoc], by simp [n1, n2]⟩

/-- The calls made by `checkButton`, in terms of the change of `buttonActive`. -/
theorem checkButton_trace (reading : Bool) (s : State) :
    (checkButton reading s).trace = s.trace ++
      (if (checkButton reading s).buttonActive = s.buttonActive then []
        else if s.buttonActive then sendOffEffects s.deviceConnected
        else sendOnEffects s.deviceConnected) := by
  rw [checkButton_eq]
  by_cases hE : sub32 (millis s)
      (if reading != s.lastButtonState then millis s else s.lastDebounceTime)
        > DEBOUNCE_DELAY ∧ (reading == LOW) ≠ s.buttonActive
  · rw [if_pos hE]
    cases hb : s.buttonActive <;> simp
  · rw [if_neg hE]
    simp

theorem checkButton_deviceConnected (reading : Bool) (s : State) :
    (checkButton reading s).deviceConnected = s.deviceConnected := by
  rw [checkButton_eq]
  split_ifs <;> rfl

theorem checkBootButton_deviceConnected (bootLevel : Bool) (s : State) :
    (checkBootButton bootLevel s).deviceConnected = s.deviceConnected := by
  rw [checkBootButton_eq]
  split_ifs <;> rfl

theorem checkBootButton_staysAwake (bootLevel : Bool) (s : State) :
    StaysAwake s (checkBootButton bootLevel s) := by
  rw [checkBootButton_eq]
  cases bootLevel <;> cases hb : s.bootButtonPressed
  · simpa [LOW] using staysAwake_refl s
  · exact ⟨[], by simp [LOW], by simp⟩
  · exact ⟨[], by simp [LOW], by simp⟩
  · by_cases hd : sub32 (millis s) s.bootPressStartTime ≥ BOOT_HOLD_TIME
    · exact ⟨pairingEffects, by simp [LOW, hd], by simp [pairingEffects]⟩
    · exact ⟨[], by simp [LOW, hd], by simp⟩

theorem checkButton_staysAwake (reading : Bool) (s : State) :
    StaysAwake s (checkButton reading s) := by
  refine ⟨_, checkButton_trace reading s, ?_⟩
  cases s.deviceConnected <;> cases s.buttonActive <;>
    by_cases h : (checkButton reading s).buttonActive = s.buttonActive <;>
    simp [sendOnEffects, sendOffEffects, onAttempt, offAttempt, droppedLine]

theorem loopPrefix_staysAwake (bootLevel reading : Bool) (s : State) :
    StaysAwake s (loopPrefix bootLevel reading s) := by
  have h1 := checkBootButton_staysAwake bootLevel s
  have h2 := checkButton_staysAwake reading (checkBootButton bootLevel s)
  have h12 := staysAwake_trans h1 h2
  obtain ⟨es, he, hn⟩ := h12
  unfold loopPrefix
  simp only []
  split
  · split
    · exact ⟨es ++ [Effect.delay 500], by simp [delay, he], by simp [hn]⟩
    · exact ⟨es ++ [Effect.delay 500], by simp [delay, he], by simp [hn]⟩
  · split
    · exact ⟨es, by simp [he], hn⟩
    · exact ⟨es, he, hn⟩

theorem loopPrefix_deviceConnected (bootLevel reading : Bool) (s : State) :
    (loopPrefix bootLevel reading s).deviceConnected = s.deviceConnected := by
  have h : (checkButton reading (checkBootButton bootLevel s)).deviceConnected
      = s.deviceConnected := by
    rw [checkButton_deviceConnected, checkBootButton_deviceConnected]
  unfold loopPrefix
  simp only []
  split
  · split <;> simp [delay, h]
  · split <;> simp [h]

/-- C6: in every pass of `loop`, `esp_deep_sleep_start` is called iff, in the state reached
after `checkBootButton`, `checkButton` and the connection bookkeeping, `deviceConnected` is
false and `millis() - lastActivityTime > 30000` (modulo `2^32`).  The two button checks do
not change `deviceConnected`, so a pass that starts connected never enters deep sleep. -/
theorem loop_sleeps_iff (bootLevel reading : Bool) (s : State) :
    (loop bootLevel reading s).trace = s.trace ++ emitted s (loop bootLevel reading s) ∧
      (Effect.deepSleepStart ∈ emitted s (loop bootLevel reading s) ↔
        ((loopPrefix bootLevel reading s).deviceConnected = false ∧
          sub32 (millis (loopPrefix bootLevel reading s))
            (loopPrefix bootLevel reading s).lastActivityTime > 30000)) ∧
      (loopPrefix bootLevel reading s).deviceConnected = s.deviceConnected ∧
      (s.deviceConnected = true →
        Effect.deepSleepStart ∉ emitted s (loop bootLevel reading s)) := by
  obtain ⟨es, he, hn⟩ := loopPrefix_staysAwake bootLevel reading s
  have hdc := loopPrefix_deviceConnected bootLevel reading s
  have main : (loop bootLevel reading s).trace = s.trace ++ emitted s (loop bootLevel reading s) ∧
      (Effect.deepSleepStart ∈ emitted s (loop bootLevel reading s) ↔
        ((loopPrefix bootLevel reading s).deviceConnected = false ∧
          sub32 (millis (loopPrefix bootLevel reading s))
            (loopPrefix bootLevel reading s).lastActivityTime > 30000)) := by
    by_cases hc : (loopPrefix bootLevel reading s).deviceConnected = false ∧
        sub32 (millis (loopPrefix bootLevel reading s))
          (loopPrefix bootLevel reading s).lastActivityTime > 30000
    · have ht : (loop bootLevel reading s).trace =
          s.trace ++ (es ++ (enterDeepSleep (loopPrefix bootLevel reading s)).trace.drop
            (loopPrefix bootLevel reading s).trace.length) := by
        simp [loop, hc.1, hc.2, SLEEP_TIMEOUT, enterDeepSleep_trace, he]
      rw [emitted_append s _ _ ht]
      refine ⟨ht, ?_⟩
      simp [hc, enterDeepSleep_trace]
    · have ht : (loop bootLevel reading s).trace =
          s.trace ++ (es ++ (delay 10 (updateStatusLED (loopPrefix bootLevel reading s))).trace.drop
            (loopPrefix bootLevel reading s).trace.length) := by
        have hc2 : ¬ ((loopPrefix bootLevel reading s).deviceConnected = false ∧
            SLEEP_TIMEOUT < sub32 (millis (loopPrefix bootLevel reading s))
              (loopPrefix bootLevel reading s).lastActivityTime) := hc
        cases hd : (loopPrefix bootLevel reading s).deviceConnected <;>
          simp [loop, hd, delay, updateStatusLED, digitalWrite, emit, he] at hc2 ⊢
        simp [hc2, Nat.not_lt.mpr hc2, he]
      rw [emitted_append s _ _ ht]
      refine ⟨ht, ?_⟩
      cases hd : (loopPrefix bootLevel reading s).deviceConnected <;>
        simp [hc, hn, delay, updateStatusLED, digitalWrite, emit, hd] at hc ⊢
      exact hc
  refine ⟨main.1, main.2, hdc, ?_⟩
  intro hconn
  rw [main.2, hdc, hconn]
  simp

/-! ## C7: the sleep scenario -/

theorem idle_tick (t : Nat) (s : State) (hs : IdleDisconnected s) (ht : t < 4294967296) :
    tickAt t HIGH HIGH s =
      if 30000 < t then enterDeepSleep { s with clock := t }
      else delay 10 (updateStatusLED { s with clock := t }) := by
  obtain ⟨clock, dc, odc, ba, lbs, ldt, lat, bpst, bbp, pkt, tr⟩ := s
  obtain ⟨h1, h2, h3, h4, h5, h6, -⟩ := hs
  simp only at h1 h2 h3 h4 h5 h6
  subst h1 h2 h3 h4 h5 h6
  have hm : t % 4294967296 = t := Nat.mod_eq_of_lt ht
  have hsub : sub32 t 0 = t := by simp only [sub32]; omega
  have hp : loopPrefix HIGH HIGH
      { clock := t, deviceConnected := false, oldDeviceConnected := false, buttonActive := false,
        lastButtonState := HIGH, lastDebounceTime := ldt, lastActivityTime := 0,
        bootPressStartTime := bpst, bootButtonPressed := false, midiPacket := pkt, trace := tr }
      = { clock := t, deviceConnected := false, oldDeviceConnected := false,
          buttonActive := false, lastButtonState := HIGH, lastDebounceTime := ldt,
          lastActivityTime := 0, bootPressStartTime := bpst, bootButtonPressed := false,
          midiPacket := pkt, trace := tr } := by
    simp [loopPrefix, checkBootButton_eq, checkButton_eq, HIGH, LOW]
  simp only [tickAt, loop, hp]
  simp [millis, hm, hsub, SLEEP_TIMEOUT]

theorem idle_tick_preserved (t : Nat) (s : State) (hs : IdleDisconnected s)
    (ht : t ≤ 30000) : IdleDisconnected (tickAt t HIGH HIGH s) := by
  rw [idle_tick t s hs (by omega), if_neg (by omega)]
  obtain ⟨h1, h2, h3, h4, h5, h6, h7⟩ := hs
  simp [IdleDisconnected, delay, updateStatusLED, digitalWrite, emit, h1, h2, h3, h4, h5, h6, h7]

theorem idleTicks_preserved (ts : List Nat) (s : State) (hs : IdleDisconnected s)
    (hts : ∀ x ∈ ts, x ≤ 30000) : IdleDisconnected (idleTicks ts s) := by
  induction ts generalizing s with
  | nil => exact hs
  | cons t ts ih =>
    simp only [idleTicks]
    apply ih
    · exact idle_tick_preserved t s hs (hts t (by simp))
    · intro x hx
      exact hts x (by simp [hx])

theorem initState_idle : IdleDisconnected initState := by
  simp [IdleDisconnected, initState]

/-- C7, as the code decides it: starting disconnected with the activity timer at 0 and both
inputs inactive, no pass of `loop` evaluated at a time `t <= 30000` ms calls
`esp_deep_sleep_start`, and after any such passes a pass evaluated at `t` (before the clock
wraps) does so iff `t > 30000`, that is from `t = 30001` ms on. -/
theorem sleep_scenario_after_30000 (ts : List Nat) (t : Nat)
    (hts : ∀ x ∈ ts, x ≤ 30000) (ht : t < 4294967296) :
    Effect.deepSleepStart ∉ (idleTicks ts initState).trace ∧
      (Effect.deepSleepStart ∈ (tickAt t HIGH HIGH (idleTicks ts initState)).trace ↔
        30000 < t) := by
  have hI := idleTicks_preserved ts initState initState_idle hts
  refine ⟨hI.2.2.2.2.2.2, ?_⟩
  rw [idle_tick t _ hI ht]
  by_cases h : 30000 < t
  · simp [h, enterDeepSleep_trace]
  · have hn := hI.2.2.2.2.2.2
    have hd := hI.1
    simp [h, delay, updateStatusLED, digitalWrite, emit, hn, hd]

theorem sleep_scenario_after_30000_witness :
    Effect.deepSleepStart ∉ (idleTicks [0, 10, 29990, 30000] initState).trace ∧
      (Effect.deepSleepStart ∈
        (tickAt 30001 HIGH HIGH (idleTicks [0, 10, 29990, 30000] initState)).trace ↔
          30000 < 30001) :=
  sleep_scenario_after_30000 [0, 10, 29990, 30000] 30001 (by decide) (by decide)

/-- C7 as stated fails: from the initial state (disconnected, activity timer at 0), the pass of
`loop` evaluated at `t = 30000` ms with both inputs inactive does not enter deep sleep. -/
theorem no_sleep_at_30000 :
    Effect.deepSleepStart ∉ (tickAt 30000 HIGH HIGH initState).trace := by
  decide

/-! ## C4: emitted edges alternate -/

theorem sampleAt_trace (x : Bool × Nat) (s : State) :
    (sampleAt x s).trace = s.trace ++
      (if (sampleAt x s).buttonActive = s.buttonActive then []
        else if s.buttonActive then sendOffEffects s.deviceConnected
        else sendOnEffects s.deviceConnected) :=
  checkButton_trace x.1 { s with clock := x.2 }

theorem sampleAt_deviceConnected (x : Bool × Nat) (s : State) :
    (sampleAt x s).deviceConnected = s.deviceConnected :=
  checkButton_deviceConnected x.1 { s with clock := x.2 }

theorem edgeAt_eq (x : Bool × Nat) (s : State) :
    edgeAt x s =
      if (sampleAt x s).buttonActive = s.buttonActive then none
      else some (if s.buttonActive then Edge.Fell else Edge.Rose) := by
  unfold edgeAt
  cases s.buttonActive <;> cases (sampleAt x s).buttonActive <;> simp

theorem messages_sendOnEffects (c : Bool) : messages (sendOnEffects c) = [true] := by
  cases c <;> decide

theorem messages_sendOffEffects (c : Bool) : messages (sendOffEffects c) = [false] := by
  cases c <;> decide

theorem transmitted_sendOnEffects (c : Bool) :
    transmitted (sendOnEffects c) = if c then [onPacket] else [] := by
  cases c <;> decide

theorem transmitted_sendOffEffects (c : Bool) :
    transmitted (sendOffEffects c) = if c then [offPacket] else [] := by
  cases c <;> decide

theorem messages_append (a b : List Effect) :
    messages (a ++ b) = messages a ++ messages b := by
  simp [messages, List.filterMap_append]

theorem transmitted_append (a b : List Effect) :
    transmitted (a ++ b) = transmitted a ++ transmitted b := by
  simp [transmitted, List.filterMap_append]

theorem runButton_cons (x : Bool × Nat) (xs : List (Bool × Nat)) (s : State) :
    runButton (x :: xs) s = runButton xs (sampleAt x s) := rfl

theorem runButton_deviceConnected (xs : List (Bool × Nat)) (s : State) :
    (runButton xs s).deviceConnected = s.deviceConnected := by
  induction xs generalizing s with
  | nil => rfl
  | cons x xs ih => rw [runButton_cons, ih, sampleAt_deviceConnected]

/-- The calls made along a run are exactly the messages of its edges, and the edges
alternate, the first one being the opposite of the logical state at the start. -/
theorem runButton_edges (xs : List (Bool × Nat)) (s : State) :
    ∃ es, (runButton xs s).trace = s.trace ++ es ∧
      messages es = (edges xs s).map Edge.isOn ∧
      transmitted es =
        (if s.deviceConnected then
          (edges xs s).map (fun e => if e.isOn then onPacket else offPacket)
        else []) ∧
      List.Chain' (fun a b => a ≠ b) (edges xs s) ∧
      ∀ e, (edges xs s).head? = some e → e = if s.buttonActive then Edge.Fell else Edge.Rose := by
  induction xs generalizing s with
  | nil => exact ⟨[], by simp [runButton], by simp [messages, edges], by simp [transmitted, edges],
      by simp [edges], by simp [edges]⟩
  | cons x xs ih =>
    obtain ⟨es, htr, hmsg, htx, hch, hhd⟩ := ih (sampleAt x s)
    have hst := sampleAt_trace x s
    have hdc := sampleAt_deviceConnected x s
    by_cases hba : (sampleAt x s).buttonActive = s.buttonActive
    · have he : edgeAt x s = none := by rw [edgeAt_eq, if_pos hba]
      rw [if_pos hba, List.append_nil] at hst
      refine ⟨es, ?_, ?_, ?_, ?_, ?_⟩
      · rw [runButton_cons, htr, hst]
      · simp [edges, he, hmsg]
      · simp [edges, he, htx, hdc]
      · simpa [edges, he] using hch
      · simpa [edges, he, hba] using hhd
    · have he : edgeAt x s = some (if s.buttonActive then Edge.Fell else Edge.Rose) := by
        rw [edgeAt_eq, if_neg hba]
      rw [if_neg hba] at hst
      have hflip : (sampleAt x s).buttonActive = !s.buttonActive := by
        cases h1 : (sampleAt x s).buttonActive <;> cases h2 : s.buttonActive <;> simp_all
      refine ⟨(if s.buttonActive then sendOffEffects s.deviceConnected
          else sendOnEffects s.deviceConnected) ++ es, ?_, ?_, ?_, ?_, ?_⟩
      · rw [runButton_cons, htr, hst, List.append_assoc]
      · rw [messages_append, hmsg]
        cases h2 : s.buttonActive <;>
          simp [edges, he, h2, messages_sendOnEffects, messages_sendOffEffects, Edge.isOn]
      · rw [transmitted_append, htx, hdc]
        cases h2 : s.buttonActive <;> cases h3 : s.deviceConnected <;>
          simp [edges, he, h2, h3, transmitted_sendOnEffects, transmitted_sendOffEffects,
            Edge.isOn]
      · simp only [edges, he, Option.toList, List.singleton_append]
        rw [List.chain'_cons']
        refine ⟨?_, hch⟩
        intro y hy
        have := hhd y (by simpa using hy)
        rw [this, hflip]
        cases s.buttonActive <;> simp
      · simp [edges, he]

/-- C4: for every sequence of samples, whatever their clock values, fed to `checkButton` from
a state with `buttonActive = false` (such as the initial one): no two consecutive emitted
edges have the same direction and the first one is `Rose`; the messages whose send is invoked
along the run are exactly the messages of the edges, in order, with nothing in between (and
when connected so are the transmitted packets); in particular the edges `Rose, Fell` give
exactly the messages on, off. -/
theorem edges_alternate_from_press (samples : List (Bool × Nat)) (s : State)
    (hs : s.buttonActive = false) :
    List.Chain' (fun a b => a ≠ b) (edges samples s) ∧
      (∀ e, (edges samples s).head? = some e → e = Edge.Rose) ∧
      messages (emitted s (runButton samples s)) = (edges samples s).map Edge.isOn ∧
      (s.deviceConnected = true →
        transmitted (emitted s (runButton samples s)) =
          (edges samples s).map (fun e => if e.isOn then onPacket else offPacket)) ∧
      (edges samples s = [Edge.Rose, Edge.Fell] →
        messages (emitted s (runButton samples s)) = [true, false]) := by
  obtain ⟨es, htr, hmsg, htx, hch, hhd⟩ := runButton_edges samples s
  have hem : emitted s (runButton samples s) = es := emitted_append s _ es htr
  rw [hem]
  refine ⟨hch, ?_, hmsg, ?_, ?_⟩
  · intro e he
    have := hhd e he
    simpa [hs] using this
  · intro hc
    simpa [hc] using htx
  · intro h2
    rw [hmsg, h2]
    rfl

theorem edges_alternate_from_press_witness :
    messages (emitted initState
      (runButton [(LOW, 0), (LOW, 60), (HIGH, 100), (HIGH, 200)] initState)) = [true, false] :=
  (edges_alternate_from_press [(LOW, 0), (LOW, 60), (HIGH, 100), (HIGH, 200)] initState
    rfl).2.2.2.2 (by decide)

/-! ## C3 and C10: no edge before the level has been stable -/

theorem runButton_snoc (pre : List (Bool × Nat)) (x : Bool × Nat) (s : State) :
    runButton (pre ++ [x]) s = sampleAt x (runButton pre s) := by
  simp [runButton, List.foldl_append]

theorem sampleAt_lastButtonState (x : Bool × Nat) (s : State) :
    (sampleAt x s).lastButtonState = x.1 := by
  unfold sampleAt
  rw [checkButton_eq]
  split_ifs <;> rfl

theorem sampleAt_lastDebounceTime (x : Bool × Nat) (s : State) :
    (sampleAt x s).lastDebounceTime =
      if x.1 = s.lastButtonState then s.lastDebounceTime else x.2 % 4294967296 := by
  unfold sampleAt
  rw [checkButton_eq]
  by_cases h : x.1 = s.lastButtonState
  · split_ifs <;> simp_all
  · split_ifs <;> simp_all [millis]

/-- A call that changes `buttonActive` saw an unchanged level, more than `DEBOUNCE_DELAY` after
the recorded debounce timestamp, that disagrees with the logical state. -/
theorem sampleAt_change (x : Bool × Nat) (s : State)
    (h : (sampleAt x s).buttonActive ≠ s.buttonActive) :
    x.1 = s.lastButtonState ∧ sub32 (x.2 % 4294967296) s.lastDebounceTime > 50 ∧
      (x.1 == LOW) ≠ s.buttonActive := by
  unfold sampleAt at h
  rw [checkButton_eq] at h
  by_cases hE : sub32 (millis { s with clock := x.2 })
      (if x.1 != s.lastButtonState then millis { s with clock := x.2 } else s.lastDebounceTime)
        > DEBOUNCE_DELAY ∧ (x.1 == LOW) ≠ s.buttonActive
  · by_cases hc : x.1 = s.lastButtonState
    · refine ⟨hc, ?_, hE.2⟩
      have := hE.1
      simpa [hc, millis, DEBOUNCE_DELAY] using this
    · exfalso
      have := hE.1
      simp only [bne_iff_ne, ne_eq, hc, not_false_eq_true, if_true, sub32, DEBOUNCE_DELAY,
        millis] at this
      omega
  · exfalso
    apply h
    simp only [] at hE
    rw [if_neg hE]

/-- Invariant of a run from the initial state: either every reading so far was `HIGH` and
the button is not active, or `lastDebounceTime` is the clock value of the first sample of the
present run of equal readings. -/
theorem runButton_debounce_inv (pre : List (Bool × Nat)) :
    ((∀ x ∈ pre, x.1 = HIGH) ∧ (runButton pre initState).buttonActive = false ∧
        (runButton pre initState).lastButtonState = HIGH) ∨
      ∃ a t0 b, pre = a ++ ((runButton pre initState).lastButtonState, t0) :: b ∧
        (∀ x ∈ b, x.1 = (runButton pre initState).lastButtonState) ∧
        (runButton pre initState).lastDebounceTime = t0 % 4294967296 := by
  induction pre using List.reverseRecOn with
  | nil => left; simp [runButton, initState]
  | append_singleton pre x ih =>
    rw [runButton_snoc]
    have hl := sampleAt_lastButtonState x (runButton pre initState)
    have hd := sampleAt_lastDebounceTime x (runButton pre initState)
    rw [hl, hd]
    by_cases hc : x.1 = (runButton pre initState).lastButtonState
    · rw [if_pos hc]
      rcases ih with ⟨hall, hba, hlbs⟩ | ⟨a, t0, b, hpre, hb, hldt⟩
      · left
        have hx : x.1 = HIGH := by rw [hc, hlbs]
        refine ⟨?_, ?_, hx⟩
        · intro y hy
          rcases List.mem_append.mp hy with h | h
          · exact hall y h
          · simp only [List.mem_singleton] at h
            rw [h]; exact hx
        · by_contra hne
          have hne2 : (sampleAt x (runButton pre initState)).buttonActive
              ≠ (runButton pre initState).buttonActive := by
            rw [hba]; exact hne
          have := (sampleAt_change x _ hne2).2.2
          rw [hx, hba] at this
          simp [HIGH, LOW] at this
      · right
        refine ⟨a, t0, b ++ [x], ?_, ?_, hldt⟩
        · rw [hc]
          conv_lhs => rw [hpre]
          simp
        · intro y hy
          rcases List.mem_append.mp hy with h | h
          · rw [hc]; exact hb y h
          · simp only [List.mem_singleton] at h
            rw [h]
    · rw [if_neg hc]
      right
      exact ⟨pre, x.2, [], rfl, by simp, rfl⟩

/-- C3: for every sequence of samples with non-decreasing clock values fed to `checkButton`
from the initial state, if the call on the sample `(r, now)` emits an edge, then an earlier
sample `(r, t0)` exists with `now - t0 >= 50` (indeed `> 50`) such that every sample between
it and the present one has the reading `r`. -/
theorem edge_only_after_stable (pre : List (Bool × Nat)) (r : Bool) (now : Nat)
    (hsorted : List.Pairwise (fun a b => a ≤ b) ((pre ++ [(r, now)]).map Prod.snd))
    (hedge : edgeAt (r, now) (runButton pre initState) ≠ none) :
    ∃ a t0 b, pre = a ++ (r, t0) :: b ∧ (∀ x ∈ b, x.1 = r) ∧
      t0 ≤ now ∧ now - t0 ≥ 50 ∧ now - t0 > 50 := by
  have hne : (sampleAt (r, now) (runButton pre initState)).buttonActive
      ≠ (runButton pre initState).buttonActive := by
    intro heq
    apply hedge
    rw [edgeAt_eq, if_pos heq]
  obtain ⟨hr, hsub, hdis⟩ := sampleAt_change (r, now) _ hne
  simp only at hr hsub hdis
  have hle : ∀ y ∈ pre, y.2 ≤ now := by
    intro y hy
    rw [List.map_append, List.pairwise_append] at hsorted
    exact hsorted.2.2 y.2 (List.mem_map_of_mem Prod.snd hy) now (by simp)
  rcases runButton_debounce_inv pre with ⟨-, hba, hlbs⟩ | ⟨a, t0, b, hpre, hb, hldt⟩
  · exfalso
    rw [hr, hlbs, hba] at hdis
    simp [HIGH, LOW] at hdis
  · rw [← hr] at hpre hb
    have ht0 : t0 ≤ now := hle (r, t0) (by rw [hpre]; simp)
    refine ⟨a, t0, b, hpre, hb, ht0, ?_, ?_⟩
    · rw [hldt] at hsub
      simp only [sub32] at hsub
      omega
    · rw [hldt] at hsub
      simp only [sub32] at hsub
      omega

theorem edge_only_after_stable_witness :
    ∃ a t0 b, [(HIGH, 0), (LOW, 10), (LOW, 30)] = a ++ (LOW, t0) :: b ∧
      (∀ x ∈ b, x.1 = LOW) ∧ t0 ≤ 61 ∧ 61 - t0 ≥ 50 ∧ 61 - t0 > 50 :=
  edge_only_after_stable [(HIGH, 0), (LOW, 10), (LOW, 30)] LOW 61 (by decide) (by decide)

/-- While every sample lies within `DEBOUNCE_DELAY` of a clock value `t1` whose 32-bit image is
the recorded debounce timestamp, a run emits no edge and calls nothing. -/
theorem runButton_quiet (xs : List (Bool × Nat)) (s : State) (t1 B : Nat)
    (hldt : s.lastDebounceTime = t1 % 4294967296) (hB : B ≤ t1 + 50)
    (hsorted : List.Pairwise (fun a b => a ≤ b) (t1 :: xs.map Prod.snd))
    (hquiet : ∀ x ∈ xs, x.2 ≤ B) :
    edges xs s = [] ∧ (runButton xs s).trace = s.trace ∧
      (runButton xs s).buttonActive = s.buttonActive := by
  induction xs generalizing s t1 with
  | nil => simp [edges, runButton]
  | cons x xs ih =>
    rw [List.map_cons, List.pairwise_cons, List.pairwise_cons] at hsorted
    obtain ⟨h1, h2, h3⟩ := hsorted
    have hx1 : t1 ≤ x.2 := h1 x.2 (by simp)
    have hxB : x.2 ≤ B := hquiet x (by simp)
    have hsame : (sampleAt x s).buttonActive = s.buttonActive := by
      by_contra hne
      have := (sampleAt_change x s hne).2.1
      rw [hldt] at this
      simp only [sub32] at this
      omega
    have htr : (sampleAt x s).trace = s.trace := by
      rw [sampleAt_trace, if_pos hsame, List.append_nil]
    have he : edgeAt x s = none := by rw [edgeAt_eq, if_pos hsame]
    have hd := sampleAt_lastDebounceTime x s
    have hrest : ∀ y ∈ xs, y.2 ≤ B := fun y hy => hquiet y (by simp [hy])
    have key : edges xs (sampleAt x s) = [] ∧
        (runButton xs (sampleAt x s)).trace = (sampleAt x s).trace ∧
        (runButton xs (sampleAt x s)).buttonActive = (sampleAt x s).buttonActive := by
      by_cases hc : x.1 = s.lastButtonState
      · rw [if_pos hc, hldt] at hd
        refine ih (sampleAt x s) t1 hd hB ?_ hrest
        rw [List.pairwise_cons]
        exact ⟨fun y hy => h1 y (by simp [hy]), h3⟩
      · rw [if_neg hc] at hd
        refine ih (sampleAt x s) x.2 hd (by omega) ?_ hrest
        rw [List.pairwise_cons]
        exact ⟨h2, h3⟩
    refine ⟨?_, ?_, ?_⟩
    · simp [edges, he, key.1]
    · rw [runButton_cons, key.2.1, htr]
    · rw [runButton_cons, key.2.2, hsame]

/-- C10: from the initial state, for every clock value `t0` of the first `checkButton` call
with the trigger input already `LOW`, the first call emits no edge and calls nothing, and
neither does any later call made, with non-decreasing clock values, at most 50 ms after `t0`
(so in particular before 50 ms have elapsed), whatever it reads. -/
theorem no_edge_at_power_on (t0 : Nat) (rest : List (Bool × Nat))
    (hsorted : List.Pairwise (fun a b => a ≤ b) (t0 :: rest.map Prod.snd))
    (hquiet : ∀ x ∈ rest, x.2 ≤ t0 + 50) :
    edgeAt (LOW, t0) initState = none ∧
      (sampleAt (LOW, t0) initState).trace = [] ∧
      edges ((LOW, t0) :: rest) initState = [] ∧
      (runButton ((LOW, t0) :: rest) initState).trace = [] ∧
      (runButton ((LOW, t0) :: rest) initState).buttonActive = false := by
  have hsame : (sampleAt (LOW, t0) initState).buttonActive = initState.buttonActive := by
    by_contra hne
    have := (sampleAt_change (LOW, t0) initState hne).1
    simp [initState, LOW, HIGH] at this
  have htr : (sampleAt (LOW, t0) initState).trace = [] := by
    rw [sampleAt_trace, if_pos hsame]; rfl
  have he : edgeAt (LOW, t0) initState = none := by rw [edgeAt_eq, if_pos hsame]
  have hd : (sampleAt (LOW, t0) initState).lastDebounceTime = t0 % 4294967296 := by
    rw [sampleAt_lastDebounceTime]
    simp [initState, LOW, HIGH]
  obtain ⟨k1, k2, k3⟩ :=
    runButton_quiet rest (sampleAt (LOW, t0) initState) t0 (t0 + 50) hd (le_refl _) hsorted hquiet
  refine ⟨he, htr, ?_, ?_, ?_⟩
  · simp [edges, he, k1]
  · rw [runButton_cons, k2, htr]
  · rw [runButton_cons, k3, hsame]; rfl

theorem no_edge_at_power_on_witness :
    (runButton [(LOW, 100000), (LOW, 100020), (HIGH, 100030), (LOW, 100050)] initState).trace
      = [] :=
  (no_edge_at_power_on 100000 [(LOW, 100020), (HIGH, 100030), (LOW, 100050)]
    (by decide) (by decide)).2.2.2.1

/-! ## C11: `checkButton` against the specification's Debouncer -/

/-- C11, as the code decides it: for every state, reading and clock value, one call of
`checkButton` is the specification's Debouncer step with the quiet period tested strictly:
the last-change time is reset when the raw level differs from the previous one, and the
stable level is updated and its edge emitted exactly when `now - last_change_time > 50` and
the raw level differs from the stable level; nothing is emitted otherwise. -/
theorem checkButton_refines_strictObserve (reading : Bool) (now : Nat) (s : State) :
    strictObserve (reading == LOW) (now % 4294967296) (debouncerOf s) =
      (debouncerOf (sampleAt (reading, now) s), edgeAt (reading, now) s) := by
  obtain ⟨clock, dc, odc, ba, lbs, ldt, lat, bpst, bbp, pkt, tr⟩ := s
  rw [edgeAt_eq]
  unfold sampleAt
  rw [checkButton_eq]
  by_cases hchg : reading = lbs
  · subst hchg
    by_cases hd : sub32 (now % 4294967296) ldt > 50
    · cases reading <;> cases ba <;>
        simp [strictObserve, debouncerOf, millis, hd, LOW, DEBOUNCE_DELAY]
    · cases reading <;> cases ba <;>
        simp [strictObserve, debouncerOf, millis, hd, LOW, DEBOUNCE_DELAY]
  · have hz : ¬ sub32 (now % 4294967296) (now % 4294967296) > 50 := by
      simp only [sub32]; omega
    cases reading <;> cases lbs <;> cases ba <;>
      simp [strictObserve, debouncerOf, millis, hz, LOW, DEBOUNCE_DELAY] at hchg ⊢

/-- C11 as stated fails: after a first sample `LOW` at 0 ms, the sample `LOW` at 50 ms has an
elapsed time of exactly 50 ms; the specification's step returns the edge `Rose` there, while
`checkButton` emits no edge and leaves `buttonActive` false. -/
theorem no_edge_at_exactly_50 :
    (specObserve (LOW == LOW) 50 (debouncerOf (runButton [(LOW, 0)] initState))).2
        = some Edge.Rose ∧
      edgeAt (LOW, 50) (runButton [(LOW, 0)] initState) = none ∧
      (runButton [(LOW, 0), (LOW, 50)] initState).buttonActive = false := by
  decide

/-! ## C20: the logical state agrees with a level that is stable -/

/-- C20: for every state and reading, with `now = millis s`: if after the call
`now - lastDebounceTime > 50` holds for the updated `lastDebounceTime`, then `buttonActive`
equals `reading == LOW`; and after every call `lastButtonState` is the reading. -/
theorem checkButton_agrees_when_stable (reading : Bool) (s : State) :
    (sub32 (millis s) (checkButton reading s).lastDebounceTime > 50 →
        (checkButton reading s).buttonActive = (reading == LOW)) ∧
      (checkButton reading s).lastButtonState = reading := by
  rw [checkButton_eq]
  by_cases hE : sub32 (millis s)
      (if reading != s.lastButtonState then millis s else s.lastDebounceTime)
        > DEBOUNCE_DELAY ∧ (reading == LOW) ≠ s.buttonActive
  · rw [if_pos hE]
    refine ⟨fun _ => ?_, rfl⟩
    have h2 := hE.2
    cases hb : s.buttonActive <;> cases hr : (reading == LOW) <;> simp_all
  · rw [if_neg hE]
    refine ⟨fun h => ?_, rfl⟩
    simp only [DEBOUNCE_DELAY] at hE
    by_contra hne
    exact hE ⟨h, fun heq => hne heq.symm⟩

/-! ## C15 and C14: the connection notifications -/

theorem onConnect_eq (s : State) :
    onConnect s =
      { s with
        deviceConnected := true
        lastActivityTime := millis s
        trace := s.trace ++ [Effect.serialPrintln "BLE MIDI connected!"] } := by
  simp [onConnect, emit, millis]

theorem onDisconnect_eq (s : State) :
    onDisconnect s =
      { s with
        deviceConnected := false
        lastActivityTime := millis s
        trace := s.trace ++
          [Effect.serialPrintln "BLE MIDI disconnected", Effect.startAdvertising,
            Effect.serialPrintln "Restarting advertising..."] } := by
  simp [onDisconnect, emit, millis]

/-- C15: for every state, with `now = millis s`: `onConnect` sets `deviceConnected` to true and
`lastActivityTime` to `now`, prints one serial line and does not call `startAdvertising`;
`onDisconnect` sets `deviceConnected` to false and `lastActivityTime` to `now` and calls
`startAdvertising`; neither touches the button state or the packet buffer, and neither
invokes or transmits a MIDI message. -/
theorem connection_reports_effects (s : State) :
    onConnect s =
        { s with
          deviceConnected := true
          lastActivityTime := millis s
          trace := s.trace ++ [Effect.serialPrintln "BLE MIDI connected!"] } ∧
      onDisconnect s =
        { s with
          deviceConnected := false
          lastActivityTime := millis s
          trace := s.trace ++
            [Effect.serialPrintln "BLE MIDI disconnected", Effect.startAdvertising,
              Effect.serialPrintln "Restarting advertising..."] } ∧
      Effect.startAdvertising ∉ emitted s (onConnect s) ∧
      Effect.startAdvertising ∈ emitted s (onDisconnect s) ∧
      ((onConnect s).buttonActive = s.buttonActive ∧
        (onConnect s).lastButtonState = s.lastButtonState ∧
        (onConnect s).lastDebounceTime = s.lastDebounceTime) ∧
      ((onDisconnect s).buttonActive = s.buttonActive ∧
        (onDisconnect s).lastButtonState = s.lastButtonState ∧
        (onDisconnect s).lastDebounceTime = s.lastDebounceTime) ∧
      (messages (emitted s (onConnect s)) = [] ∧ transmitted (emitted s (onConnect s)) = []) ∧
      (messages (emitted s (onDisconnect s)) = [] ∧
        transmitted (emitted s (onDisconnect s)) = []) := by
  have e1 : emitted s (onConnect s) = [Effect.serialPrintln "BLE MIDI connected!"] :=
    emitted_append s _ _ (by rw [onConnect_eq])
  have e2 : emitted s (onDisconnect s) =
      [Effect.serialPrintln "BLE MIDI disconnected", Effect.startAdvertising,
        Effect.serialPrintln "Restarting advertising..."] :=
    emitted_append s _ _ (by rw [onDisconnect_eq])
  refine ⟨onConnect_eq s, onDisconnect_eq s, ?_, ?_, ?_, ?_, ?_, ?_⟩
  · rw [e1]; simp
  · rw [e2]; simp
  · rw [onConnect_eq]; exact ⟨rfl, rfl, rfl⟩
  · rw [onDisconnect_eq]; exact ⟨rfl, rfl, rfl⟩
  · rw [e1]; exact ⟨by decide, by decide⟩
  · rw [e2]; exact ⟨by decide, by decide⟩

/-- C14, as the code decides it: for every state, a connect notification delivered while
already connected, and a disconnect notification delivered while already disconnected, leaves
the connection flag as it is but sets `lastActivityTime` to the clock value of the
notification: the timer is reset by every notification.  The bookkeeping of
`oldDeviceConnected` in `loop` is the only place that tells real transitions apart, and it
does not write the timer. -/
theorem repeated_report_resets_timer (s : State) :
    (s.deviceConnected = true →
        (onConnect s).deviceConnected = s.deviceConnected ∧
        (onConnect s).lastActivityTime = millis s) ∧
      (s.deviceConnected = false →
        (onDisconnect s).deviceConnected = s.deviceConnected ∧
        (onDisconnect s).lastActivityTime = millis s) ∧
      ∀ bootLevel reading,
        (loopPrefix bootLevel reading s).lastActivityTime =
          (checkButton reading (checkBootButton bootLevel s)).lastActivityTime := by
  refine ⟨fun h => ?_, fun h => ?_, fun bootLevel reading => ?_⟩
  · rw [onConnect_eq]; exact ⟨h.symm, rfl⟩
  · rw [onDisconnect_eq]; exact ⟨h.symm, rfl⟩
  · unfold loopPrefix
    simp only []
    split_ifs <;> rfl

/-- C14 as stated fails: a second connect notification at 1000 ms, delivered while connected
since 0 ms, moves `lastActivityTime` from 0 to 1000; and a disconnect notification at 1000 ms
delivered in the initial, disconnected state moves it from 0 to 1000 as well. -/
theorem repeated_connect_moves_timer :
    (onConnect initState).deviceConnected = true ∧
      (onConnect initState).lastActivityTime = 0 ∧
      (onConnect { onConnect initState with clock := 1000 }).lastActivityTime = 1000 ∧
      initState.deviceConnected = false ∧ initState.lastActivityTime = 0 ∧
      (onDisconnect { initState with clock := 1000 }).lastActivityTime = 1000 := by
  decide

/-! ## C16: the status LED -/

/-- C16: for every state, with `now = millis s`: `updateStatusLED` writes `HIGH` to the LED
when connected, and when not connected writes the level `(now / 500) mod 2` (`HIGH` iff it
is 1).  For every `now` with `now + 1000 < 2^32` the level written at `now + 1000` is the one
written at `now` and the level written at `now + 500` is the opposite one. -/
theorem updateStatusLED_blink (s : State) :
    (s.deviceConnected = true →
        (updateStatusLED s).trace = s.trace ++ [Effect.digitalWrite LED_PIN HIGH]) ∧
      (s.deviceConnected = false →
        (updateStatusLED s).trace =
          s.trace ++ [Effect.digitalWrite LED_PIN (decide ((millis s / 500) % 2 = 1))]) ∧
      ∀ now, now + 1000 < 4294967296 → s.deviceConnected = false →
        ledWrites (emitted s (updateStatusLED { s with clock := now }))
            = [decide ((now / 500) % 2 = 1)] ∧
          ledWrites (emitted s (updateStatusLED { s with clock := now + 1000 }))
            = ledWrites (emitted s (updateStatusLED { s with clock := now })) ∧
          ledWrites (emitted s (updateStatusLED { s with clock := now + 500 }))
            = (ledWrites (emitted s (updateStatusLED { s with clock := now }))).map
                (fun l => !l) := by
  have lvl : ∀ u : State, u.deviceConnected = false →
      (updateStatusLED u).trace =
        u.trace ++ [Effect.digitalWrite LED_PIN (decide ((millis u / 500) % 2 = 1))] := by
    intro u hu
    have h2 : ((millis u / 500) % 2 != 0) = decide ((millis u / 500) % 2 = 1) := by
      rcases Nat.mod_two_eq_zero_or_one (millis u / 500) with h | h <;> simp [h]
    simp [updateStatusLED, digitalWrite, emit, hu, h2]
  refine ⟨fun h => ?_, lvl s, ?_⟩
  · simp [updateStatusLED, digitalWrite, emit, h]
  · intro now hnow hd
    have em : ∀ c, c < 4294967296 →
        ledWrites (emitted s (updateStatusLED { s with clock := c }))
          = [decide ((c / 500) % 2 = 1)] := by
      intro c hc
      have := lvl { s with clock := c } hd
      rw [emitted_append s _ _ this]
      simp [ledWrites, millis, Nat.mod_eq_of_lt hc]
    rw [em now (by omega), em (now + 1000) hnow, em (now + 500) (by omega)]
    refine ⟨rfl, ?_, ?_⟩
    · have : (now + 1000) / 500 % 2 = now / 500 % 2 := by omega
      rw [this]
    · have : (now + 500) / 500 % 2 = (now / 500 + 1) % 2 := by omega
      rw [this]
      rcases Nat.mod_two_eq_zero_or_one (now / 500) with h | h <;>
        simp [h, Nat.add_mod]

/-! ## C13: the pairing entry action -/

/-- C13: from every state, `enterPairingMode` first calls `startAdvertising`, then blinks the
LED six times (on 100 ms, off 100 ms), which blocks for 1200 ms in total and ends with the LED
off, and last sets `lastActivityTime` to the clock value reached; it invokes and transmits no
MIDI message and leaves the button state, the connection flags and the packet buffer alone. -/
theorem enterPairingMode_sequence (s : State) :
    (enterPairingMode s).trace =
        s.trace ++ ([Effect.serialPrintln "Entering pairing mode...", Effect.startAdvertising]
          ++ (List.replicate 6 blinkCycle).flatten) ∧
      delayTotal (emitted s (enterPairingMode s)) = 1200 ∧
      delayTotal (emitted s (enterPairingMode s)) ≤ 1200 ∧
      (enterPairingMode s).clock = s.clock + 1200 ∧
      (ledWrites (emitted s (enterPairingMode s))).length = 12 ∧
      (ledWrites (emitted s (enterPairingMode s))).getLast? = some LOW ∧
      (enterPairingMode s).lastActivityTime = millis (enterPairingMode s) ∧
      (messages (emitted s (enterPairingMode s)) = [] ∧
        transmitted (emitted s (enterPairingMode s)) = [] ∧
        Effect.notify ∉ emitted s (enterPairingMode s)) ∧
      ((enterPairingMode s).buttonActive = s.buttonActive ∧
        (enterPairingMode s).lastButtonState = s.lastButtonState ∧
        (enterPairingMode s).lastDebounceTime = s.lastDebounceTime ∧
        (enterPairingMode s).deviceConnected = s.deviceConnected ∧
        (enterPairingMode s).bootButtonPressed = s.bootButtonPressed ∧
        (enterPairingMode s).midiPacket = s.midiPacket) := by
  have hp : pairingEffects =
      [Effect.serialPrintln "Entering pairing mode...", Effect.startAdvertising]
        ++ (List.replicate 6 blinkCycle).flatten := by decide
  have em : emitted s (enterPairingMode s) = pairingEffects :=
    emitted_append s _ _ (by rw [enterPairingMode_eq])
  rw [em]
  refine ⟨?_, by decide, by decide, ?_, by decide, by decide, ?_,
    ⟨by decide, by decide, by decide⟩, ?_⟩
  · rw [enterPairingMode_eq, ← hp]
  · rw [enterPairingMode_eq]
  · rw [enterPairingMode_eq]; rfl
  · rw [enterPairingMode_eq]; exact ⟨rfl, rfl, rfl, rfl, rfl, rfl⟩

/-! ## C17: the Control Change encoding -/

theorem and_0x7F_lt (x : Nat) : x &&& 0x7F < 128 :=
  Nat.lt_of_le_of_lt Nat.and_le_right (by decide)

theorem and_0x7F_of_le {x : Nat} (h : x ≤ 127) : (x % 256) &&& 0x7F = x := by
  have h1 : x % 256 = x := Nat.mod_eq_of_lt (by omega)
  have h2 : x &&& (2 ^ 7 - 1) = x % 2 ^ 7 := Nat.and_pow_two_sub_one_eq_mod x 7
  have h3 : x % 2 ^ 7 = x := Nat.mod_eq_of_lt (by omega)
  rw [h1]
  exact h2.trans h3

theorem cc_status_of_channel {ch : Nat} (h1 : 1 ≤ ch) (h16 : ch ≤ 16) :
    ((0xB0 % 256) ||| (((ch % 256 + 4294967295) % 4294967296) &&& 0x0F)) % 256
      = 0xB0 + (ch - 1) := by
  interval_cases ch <;> rfl

/-- The packet written by a Control Change send while connected, on the claimed domain. -/
theorem sendMIDI_cc_eq (ch cc v : Nat) (s : State) (hc : s.deviceConnected = true)
    (h1 : 1 ≤ ch) (h16 : ch ≤ 16) (hcc : cc ≤ 127) (hv : v ≤ 127) :
    sendMIDI 0xB0 ch cc v s =
      { s with
        midiPacket := [0x80, 0x80, 0xB0 + (ch - 1), cc, v]
        trace := s.trace ++
          [Effect.setValue [0x80, 0x80, 0xB0 + (ch - 1), cc, v], Effect.notify] } := by
  have hs := cc_status_of_channel h1 h16
  have hn := and_0x7F_of_le hcc
  have hvv := and_0x7F_of_le hv
  simp only [sendMIDI, hc, Bool.not_true, Bool.false_eq_true, if_false, emit, hs, hn, hvv]
  simp

/-- C17: for every channel in 1..16, controller in 0..127 and value in 0..127, `sendMIDI 0xB0`
while connected writes and transmits the packet `[0x80, 0x80, 0xB0 + (channel - 1),
controller, value]`; the status byte has high nibble `0xB` and low nibble `channel - 1`, both
data bytes are below 128, and two triples of the domain with the same packet are equal.
For arbitrary type, channel, note and velocity the two data bytes are below 128. -/
theorem sendMIDI_cc_encoding (ch cc v : Nat) (s : State) (hc : s.deviceConnected = true)
    (h1 : 1 ≤ ch) (h16 : ch ≤ 16) (hcc : cc ≤ 127) (hv : v ≤ 127) :
    (sendMIDI 0xB0 ch cc v s).midiPacket = [0x80, 0x80, 0xB0 + (ch - 1), cc, v] ∧
      emitted s (sendMIDI 0xB0 ch cc v s) =
        [Effect.setValue [0x80, 0x80, 0xB0 + (ch - 1), cc, v], Effect.notify] ∧
      (∀ status, (sendMIDI 0xB0 ch cc v s).midiPacket.get? 2 = some status →
        status / 16 = 0xB ∧ status % 16 = ch - 1) ∧
      (∀ d, d ∈ (sendMIDI 0xB0 ch cc v s).midiPacket.drop 3 → d < 128) ∧
      (∀ ch2 cc2 v2 : Nat, ∀ s2 : State, s2.deviceConnected = true →
        1 ≤ ch2 → ch2 ≤ 16 → cc2 ≤ 127 → v2 ≤ 127 →
        (sendMIDI 0xB0 ch2 cc2 v2 s2).midiPacket = (sendMIDI 0xB0 ch cc v s).midiPacket →
        ch2 = ch ∧ cc2 = cc ∧ v2 = v) ∧
      (∀ type channel note velocity : Nat,
        ∀ d, d ∈ (sendMIDI type channel note velocity s).midiPacket.drop 3 → d < 128) := by
  have e := sendMIDI_cc_eq ch cc v s hc h1 h16 hcc hv
  refine ⟨by rw [e], ?_, ?_, ?_, ?_, ?_⟩
  · exact emitted_append s _ _ (by rw [e])
  · intro status hst
    rw [e] at hst
    simp at hst
    omega
  · intro d hd
    rw [e] at hd
    simp at hd
    omega
  · intro ch2 cc2 v2 s2 hc2 h12 h162 hcc2 hv2 heq
    rw [e, sendMIDI_cc_eq ch2 cc2 v2 s2 hc2 h12 h162 hcc2 hv2] at heq
    simp at heq
    omega
  · intro type channel note velocity d hd
    simp [sendMIDI, hc, emit] at hd
    rcases hd with h | h
    · rw [h]; exact and_0x7F_lt _
    · rw [h]; exact and_0x7F_lt _

theorem sendMIDI_cc_encoding_witness :
    (sendMIDI 0xB0 16 7 100 { initState with deviceConnected := true }).midiPacket
      = [0x80, 0x80, 0xB0 + (16 - 1), 7, 100] :=
  (sendMIDI_cc_encoding 16 7 100 { initState with deviceConnected := true } rfl
    (by decide) (by decide) (by decide) (by decide)).1

/-! ## C19: a pass that enters deep sleep transmits nothing -/

theorem silent_trans {a b c : State} (h1 : Silent a b) (h2 : Silent b c) : Silent a c := by
  obtain ⟨e1, t1, n1, m1, p1⟩ := h1
  obtain ⟨e2, t2, n2, m2, p2⟩ := h2
  refine ⟨e1 ++ e2, by rw [t2, t1, List.append_assoc], ?_, ?_, by rw [p2, p1]⟩
  · intro d hd
    rcases List.mem_append.mp hd with h | h
    · exact n1 d h
    · exact n2 d h
  · intro hd
    rcases List.mem_append.mp hd with h | h
    · exact m1 h
    · exact m2 h

theorem checkBootButton_silent (bootLevel : Bool) (s : State) :
    Silent s (checkBootButton bootLevel s) := by
  rw [checkBootButton_eq]
  split_ifs
  · exact ⟨[], by simp, by simp, by simp, rfl⟩
  · exact ⟨[], by simp, by simp, by simp, rfl⟩
  · exact ⟨pairingEffects, rfl, by simp [pairingEffects], by decide, rfl⟩
  · exact ⟨[], by simp, by simp, by simp, rfl⟩
  · exact ⟨[], by simp, by simp, by simp, rfl⟩

theorem checkButton_silent (reading : Bool) (s : State) (hd : s.deviceConnected = false) :
    Silent s (checkButton reading s) := by
  rw [checkButton_eq]
  by_cases hE : sub32 (millis s)
      (if reading != s.lastButtonState then millis s else s.lastDebounceTime)
        > DEBOUNCE_DELAY ∧ (reading == LOW) ≠ s.buttonActive
  · rw [if_pos hE]
    refine ⟨_, rfl, ?_, ?_, by simp [hd]⟩
    · intro d
      cases s.buttonActive <;>
        simp [hd, sendOnEffects, sendOffEffects, onAttempt, offAttempt, droppedLine]
    · cases s.buttonActive <;>
        simp [hd, sendOnEffects, sendOffEffects, onAttempt, offAttempt, droppedLine]
  · rw [if_neg hE]
    exact ⟨[], by simp, by simp, by simp, rfl⟩

theorem loopPrefix_silent (bootLevel reading : Bool) (s : State)
    (hd : s.deviceConnected = false) : Silent s (loopPrefix bootLevel reading s) := by
  have h1 := checkBootButton_silent bootLevel s
  have h2 := checkButton_silent reading (checkBootButton bootLevel s)
    (by rw [checkBootButton_deviceConnected, hd])
  obtain ⟨es, he, hn, hm, hp⟩ := silent_trans h1 h2
  unfold loopPrefix
  simp only []
  split
  · split
    · exact ⟨es ++ [Effect.delay 500], by simp [delay, he], by simp [hn], by simp [hm],
        by simp [delay, hp]⟩
    · exact ⟨es ++ [Effect.delay 500], by simp [delay, he], by simp [hn], by simp [hm],
        by simp [delay, hp]⟩
  · split
    · exact ⟨es, by simp [he], hn, hm, by simp [hp]⟩
    · exact ⟨es, he, hn, hm, hp⟩

theorem enterDeepSleep_silent (s : State) (hd : s.deviceConnected = false) :
    Silent s (enterDeepSleep s) := by
  refine ⟨_, enterDeepSleep_trace s, ?_, ?_, ?_⟩
  · intro d
    cases s.buttonActive <;> simp [hd, sendOffEffects, offAttempt, droppedLine]
  · cases s.buttonActive <;> simp [hd, sendOffEffects, offAttempt, droppedLine]
  · cases hb : s.buttonActive <;>
      simp [enterDeepSleep, emit, delay, digitalWrite, hb, sendNoteOff_eq, hd]

/-- The sleep branch of `loop` is taken iff `esp_deep_sleep_start` is among its calls. -/
theorem loop_deepSleep_iff (bootLevel reading : Bool) (s : State) :
    Effect.deepSleepStart ∈ emitted s (loop bootLevel reading s) ↔
      ((loopPrefix bootLevel reading s).deviceConnected = false ∧
        sub32 (millis (loopPrefix bootLevel reading s))
          (loopPrefix bootLevel reading s).lastActivityTime > SLEEP_TIMEOUT) := by
  obtain ⟨es, he, hn⟩ := loopPrefix_staysAwake bootLevel reading s
  by_cases hc : (loopPrefix bootLevel reading s).deviceConnected = false ∧
      sub32 (millis (loopPrefix bootLevel reading s))
        (loopPrefix bootLevel reading s).lastActivityTime > SLEEP_TIMEOUT
  · have hl : loop bootLevel reading s = enterDeepSleep (loopPrefix bootLevel reading s) := by
      simp [loop, hc.1, hc.2]
    have ht := enterDeepSleep_trace (loopPrefix bootLevel reading s)
    rw [← hl, he, List.append_assoc] at ht
    rw [emitted_append s _ _ ht]
    simp [hc]
  · have hl : loop bootLevel reading s
        = delay 10 (updateStatusLED (loopPrefix bootLevel reading s)) := by
      unfold loop
      simp only []
      rw [if_neg]
      simpa using hc
    have ht : ∃ l, (loop bootLevel reading s).trace
        = s.trace ++ (es ++ [Effect.digitalWrite LED_PIN l, Effect.delay 10]) := by
      rw [hl]
      unfold updateStatusLED
      split
      · exact ⟨HIGH, by simp [delay, digitalWrite, emit, he]⟩
      · exact ⟨(millis (loopPrefix bootLevel reading s) / 500) % 2 != 0,
          by simp [delay, digitalWrite, emit, he]⟩
    obtain ⟨l, ht⟩ := ht
    rw [emitted_append s _ _ ht]
    simp [hc, hn]

/-- C19: in every pass of `loop` that calls `esp_deep_sleep_start`, neither `setValue` nor
`notify` is called and the packet buffer keeps its value: the pass started and stayed
disconnected, so every send of the pass is dropped by `sendMIDI`, and when `buttonActive`
holds at the sleep decision the sleep entry action consists of the dropped note-off attempt
followed by the suspend sequence. -/
theorem sleeping_pass_transmits_nothing (bootLevel reading : Bool) (s : State)
    (h : Effect.deepSleepStart ∈ emitted s (loop bootLevel reading s)) :
    s.deviceConnected = false ∧
      (∀ d, Effect.setValue d ∉ emitted s (loop bootLevel reading s)) ∧
      Effect.notify ∉ emitted s (loop bootLevel reading s) ∧
      transmitted (emitted s (loop bootLevel reading s)) = [] ∧
      (loop bootLevel reading s).midiPacket = s.midiPacket ∧
      ((loopPrefix bootLevel reading s).buttonActive = true →
        emitted (loopPrefix bootLevel reading s) (loop bootLevel reading s) =
          [Effect.serialPrintln "Entering deep sleep...",
            Effect.serialPrintfCC 1 102 0,
            Effect.serialPrintln "Not connected - MIDI not sent",
            Effect.digitalWrite LED_PIN LOW,
            Effect.sleepEnableGpioWakeup,
            Effect.gpioWakeupEnable BOOT_BUTTON GpioIntr.lowLevel,
            Effect.gpioWakeupEnable BUTTON_PIN GpioIntr.lowLevel,
            Effect.serialPrintln "Going to sleep now...",
            Effect.delay 100,
            Effect.deepSleepStart]) := by
  have hc := (loop_deepSleep_iff bootLevel reading s).mp h
  have hd : s.deviceConnected = false := by
    rw [← loopPrefix_deviceConnected bootLevel reading s]; exact hc.1
  have hl : loop bootLevel reading s = enterDeepSleep (loopPrefix bootLevel reading s) := by
    simp [loop, hc.1, hc.2]
  have hs : Silent s (loop bootLevel reading s) := by
    rw [hl]
    exact silent_trans (loopPrefix_silent bootLevel reading s hd)
      (enterDeepSleep_silent _ hc.1)
  obtain ⟨es, he, hn, hm, hp⟩ := hs
  rw [emitted_append s _ _ he]
  refine ⟨hd, hn, hm, ?_, hp, ?_⟩
  · unfold transmitted
    rw [List.filterMap_eq_nil_iff]
    intro e hmem
    cases e <;> simp
    exact hn _ hmem
  · intro hb
    rw [hl]
    apply emitted_append
    rw [enterDeepSleep_trace, hb, hc.1]
    rfl

theorem sleeping_pass_transmits_nothing_witness :
    transmitted (emitted
      { initState with clock := 40000, buttonActive := true, lastButtonState := LOW }
      (loop HIGH LOW
        { initState with clock := 40000, buttonActive := true, lastButtonState := LOW }))
      = [] :=
  (sleeping_pass_transmits_nothing HIGH LOW
    { initState with clock := 40000, buttonActive := true, lastButtonState := LOW }
    (by decide)).2.2.2.1

/-! ## C12: one release per hold of the boot button -/

theorem bootSampleAt_pressed (x : Bool × Nat) (s : State) :
    (bootSampleAt x s).bootButtonPressed = (x.1 == LOW) := by
  unfold bootSampleAt
  rw [checkBootButton_eq]
  cases hx : x.1 <;> cases hb : s.bootButtonPressed <;> simp [LOW]
  split_ifs <;> rfl

theorem bootSampleAt_start (x : Bool × Nat) (s : State) :
    (bootSampleAt x s).bootPressStartTime =
      if x.1 = LOW ∧ s.bootButtonPressed = false then x.2 % 4294967296
      else s.bootPressStartTime := by
  unfold bootSampleAt
  rw [checkBootButton_eq]
  cases hx : x.1 <;> cases hb : s.bootButtonPressed <;> simp [LOW, millis]
  split_ifs <;> rfl

theorem runBoot_snoc (pre : List (Bool × Nat)) (x : Bool × Nat) (s : State) :
    runBoot (pre ++ [x]) s = bootSampleAt x (runBoot pre s) := by
  simp [runBoot, List.foldl_append]

theorem runBoot_append (a b : List (Bool × Nat)) (s : State) :
    runBoot (a ++ b) s = runBoot b (runBoot a s) := by
  simp [runBoot, List.foldl_append]

theorem runBoot_cons (x : Bool × Nat) (xs : List (Bool × Nat)) (s : State) :
    runBoot (x :: xs) s = runBoot xs (bootSampleAt x s) := rfl

/-- After a run, `bootButtonPressed` tells whether the last sample was active. -/
theorem runBoot_pressed (pre : List (Bool × Nat)) (s : State) :
    (runBoot pre s).bootButtonPressed =
      match pre.getLast? with
      | some x => (x.1 == LOW)
      | none => s.bootButtonPressed := by
  induction pre using List.reverseRecOn with
  | nil => rfl
  | append_singleton pre x _ =>
    rw [runBoot_snoc, bootSampleAt_pressed]
    simp

/-- While the button is held, the recorded start of the hold does not move. -/
theorem runBoot_hold (b : List (Bool × Nat)) (s : State) (hp : s.bootButtonPressed = true)
    (hb : ∀ x ∈ b, x.1 = LOW) :
    (runBoot b s).bootButtonPressed = true ∧
      (runBoot b s).bootPressStartTime = s.bootPressStartTime := by
  induction b generalizing s with
  | nil => exact ⟨hp, rfl⟩
  | cons x xs ih =>
    have hx : x.1 = LOW := hb x (by simp)
    have h1 : (bootSampleAt x s).bootButtonPressed = true := by
      rw [bootSampleAt_pressed, hx]; rfl
    have h2 : (bootSampleAt x s).bootPressStartTime = s.bootPressStartTime := by
      rw [bootSampleAt_start, if_neg]
      simp [hp]
    obtain ⟨k1, k2⟩ := ih (bootSampleAt x s) h1 (fun y hy => hb y (by simp [hy]))
    exact ⟨by rw [runBoot_cons, k1], by rw [runBoot_cons, k2, h2]⟩

theorem releaseAt_ne_none (x : Bool × Nat) (s : State) :
    releaseAt x s ≠ none ↔ (x.1 = HIGH ∧ s.bootButtonPressed = true) := by
  unfold releaseAt
  cases x.1 <;> cases s.bootButtonPressed <;> simp [LOW, HIGH]

/-- C12: for every sequence of boot-input samples fed to `checkBootButton` from a state in
which the button is not held: the call on the next sample `(lvl, now)` processes a release
(evaluates a press duration, and clears `bootButtonPressed`) iff the sample is inactive
and the sample before it was active; and the duration evaluated is `now` minus the clock
value of the first active sample of the hold, modulo `2^32`. -/
theorem release_once_per_hold (pre : List (Bool × Nat)) (lvl : Bool) (now : Nat) (s0 : State)
    (h0 : s0.bootButtonPressed = false) :
    (releaseAt (lvl, now) (runBoot pre s0) ≠ none ↔
        (lvl = HIGH ∧ ∃ t, pre.getLast? = some (LOW, t))) ∧
      (releaseAt (lvl, now) (runBoot pre s0) ≠ none ↔
        ((runBoot pre s0).bootButtonPressed = true ∧
          (runBoot (pre ++ [(lvl, now)]) s0).bootButtonPressed = false)) ∧
      (∀ a t0 b, pre = a ++ (LOW, t0) :: b → (∀ x ∈ b, x.1 = LOW) →
        (∀ y, a.getLast? = some y → y.1 = HIGH) → lvl = HIGH →
        releaseAt (lvl, now) (runBoot pre s0) = some (sub32 now t0)) := by
  have hp := runBoot_pressed pre s0
  refine ⟨?_, ?_, ?_⟩
  · rw [releaseAt_ne_none, hp]
    cases hl : pre.getLast? with
    | none => simp [h0]
    | some y =>
      obtain ⟨y1, y2⟩ := y
      cases y1 <;> simp [LOW]
  · rw [releaseAt_ne_none, runBoot_snoc, bootSampleAt_pressed]
    cases lvl <;> cases (runBoot pre s0).bootButtonPressed <;> simp [LOW, HIGH]
  · intro a t0 b hpre hb ha hlvl
    have hpa : (runBoot a s0).bootButtonPressed = false := by
      rw [runBoot_pressed]
      cases hl : a.getLast? with
      | none => exact h0
      | some y =>
        have := ha y hl
        simp [this, HIGH, LOW]
    have h1 : (bootSampleAt (LOW, t0) (runBoot a s0)).bootButtonPressed = true := by
      rw [bootSampleAt_pressed]; rfl
    have h2 : (bootSampleAt (LOW, t0) (runBoot a s0)).bootPressStartTime
        = t0 % 4294967296 := by
      rw [bootSampleAt_start, if_pos ⟨rfl, hpa⟩]
    obtain ⟨k1, k2⟩ := runBoot_hold b _ h1 hb
    have hrun : runBoot pre s0 = runBoot b (bootSampleAt (LOW, t0) (runBoot a s0)) := by
      rw [hpre, runBoot_append, runBoot_cons]
    rw [hrun]
    unfold releaseAt
    simp only [hlvl, k1, k2, h2, millis]
    simp [HIGH, LOW, sub32]

theorem release_once_per_hold_witness :
    releaseAt (HIGH, 6200) (runBoot [(HIGH, 0), (LOW, 100), (LOW, 3000)] initState)
      = some (sub32 6200 100) :=
  (release_once_per_hold [(HIGH, 0), (LOW, 100), (LOW, 3000)] HIGH 6200 initState rfl).2.2
    [(HIGH, 0)] 100 [(LOW, 3000)] rfl (by decide) (by decide) rfl

/-! ## C18: no sleep within the timeout of an activity -/

end MiniMidi
